import Mathlib

/-!
# Verification of the replicante MCP stdio protocol hosts

This development embeds the three Python programs of the repository —
`src/test/mock_mcp_server.py` (`MockMCPServer`), `src/test/http_mcp_server.py`
(`HttpMCPServer`) and `src/docker/mcp-tools-client.py` (`MCPToolsClient`) — as
executable Lean functions over a JSON value type, and proves properties of the
line-delimited JSON-RPC behaviour those programs implement.

The JSON codec itself is the Python standard library's `json` module
(`json.loads` / `json.dumps`), which is not part of the repository's sources;
it is modelled here from the specification's Message Codec section: `decode`
parses one line as a structured payload, `encode` serializes a value to a
single line using `json.dumps`'s default separators.  Nondeterministic or
external effects (the clock, the random generator, the network fetch, the
child process) are passed in explicitly as environment records.
-/

/-- JSON values as produced by json.loads.  Integers are kept exactly;
non-integral number literals are kept as their source text in `fnum` (none of
the protocol messages verified here carries one).  Objects are key-value
lists in insertion order, as Python dicts preserve insertion order. -/
inductive Json where
  | null
  | bool (bv : Bool)
  | num (iv : Int)
  | fnum (lit : String)
  | str (sv : String)
  | arr (items : List Json)
  | obj (entries : List (String × Json))

mutual
def Json.beq : Json → Json → Bool
  | .null, .null => true
  | .bool x, .bool y => x == y
  | .num x, .num y => x == y
  | .fnum x, .fnum y => x == y
  | .str x, .str y => x == y
  | .arr xs, .arr ys => Json.beqList xs ys
  | .obj xs, .obj ys => Json.beqFields xs ys
  | _, _ => false

def Json.beqList : List Json → List Json → Bool
  | [], [] => true
  | x :: xs, y :: ys => Json.beq x y && Json.beqList xs ys
  | _, _ => false

def Json.beqFields : List (String × Json) → List (String × Json) → Bool
  | [], [] => true
  | (k, v) :: xs, (k', v') :: ys => k == k' && Json.beq v v' && Json.beqFields xs ys
  | _, _ => false
end

instance : BEq Json := ⟨Json.beq⟩


@[reducible] def lbrace : Char := Char.ofNat 123
@[reducible] def rbrace : Char := Char.ofNat 125

/-- Decimal digit character for a value below ten. -/
def digitChar (n : Nat) : Char := Char.ofNat (48 + n)

/-- Fuel-indexed helper for decimal digit rendering. -/
def natCharsAux : Nat → Nat → List Char
  | 0, _ => []
  | f + 1, n =>
    if n < 10 then [digitChar n]
    else natCharsAux f (n / 10) ++ [digitChar (n % 10)]

/-- Decimal digits of a natural number, most significant first, no leading
zeros, exactly as Python renders an int. -/
def natChars (n : Nat) : List Char := natCharsAux (n + 1) n

/-- Decimal rendering of an integer, as Python str() produces it. -/
def intChars (n : Int) : List Char :=
  if n < 0 then '-' :: natChars n.natAbs else natChars n.toNat

/-- JSON string escaping as json.dumps performs it for quote and backslash. -/
def escChar (c : Char) : List Char :=
  if c = '"' then ['\\', '"']
  else if c = '\\' then ['\\', '\\']
  else [c]

def encStrChars : List Char → List Char
  | [] => []
  | c :: cs => escChar c ++ encStrChars cs

mutual
/-- Serialization of a JSON value, matching json.dumps with its default
separators (", " between items, ": " between key and value). -/
def encodeJson : Json → List Char
  | .null => ['n', 'u', 'l', 'l']
  | .bool false => ['f', 'a', 'l', 's', 'e']
  | .bool true => ['t', 'r', 'u', 'e']
  | .num n => intChars n
  | .fnum s => s.data
  | .str s => '"' :: encStrChars s.data ++ ['"']
  | .arr [] => ['[', ']']
  | .arr (x :: xs) => '[' :: (encodeJson x ++ encodeItems xs) ++ [']']
  | .obj [] => [lbrace, rbrace]
  | .obj (f :: fs) => lbrace :: (encodeField f ++ encodeFields fs) ++ [rbrace]

def encodeItems : List Json → List Char
  | [] => []
  | x :: xs => ',' :: ' ' :: encodeJson x ++ encodeItems xs

def encodeField : String × Json → List Char
  | (k, v) => '"' :: encStrChars k.data ++ ['"', ':', ' '] ++ encodeJson v

def encodeFields : List (String × Json) → List Char
  | [] => []
  | f :: fs => ',' :: ' ' :: encodeField f ++ encodeFields fs
end

/-- Encode a JSON value as the single output line json.dumps produces. -/
def jsonToLine (j : Json) : String := ⟨encodeJson j⟩

/-- Whitespace characters the JSON grammar skips between tokens. -/
def isJsonWs (c : Char) : Bool := c = ' ' || c = '\t' || c = '\n' || c = '\r'

def skipWs (l : List Char) : List Char := l.dropWhile isJsonWs

def hexVal (c : Char) : Option Nat :=
  if '0' ≤ c ∧ c ≤ '9' then some (c.toNat - 48)
  else if 'a' ≤ c ∧ c ≤ 'f' then some (c.toNat - 87)
  else if 'A' ≤ c ∧ c ≤ 'F' then some (c.toNat - 55)
  else none

/-- Read the body of a JSON string literal after the opening quote, processing
escape sequences, up to the closing quote.  Raw control characters are
rejected, as json.loads does in strict mode. -/
def readStrChars : List Char → Option (List Char × List Char)
  | [] => none
  | c :: cs =>
    if c = '"' then some ([], cs)
    else if c = '\\' then
      match cs with
      | [] => none
      | e :: cs2 =>
        if e = '"' then (readStrChars cs2).map (fun p => ('"' :: p.1, p.2))
        else if e = '\\' then (readStrChars cs2).map (fun p => ('\\' :: p.1, p.2))
        else if e = '/' then (readStrChars cs2).map (fun p => ('/' :: p.1, p.2))
        else if e = 'b' then (readStrChars cs2).map (fun p => ('\x08' :: p.1, p.2))
        else if e = 'f' then (readStrChars cs2).map (fun p => ('\x0c' :: p.1, p.2))
        else if e = 'n' then (readStrChars cs2).map (fun p => ('\n' :: p.1, p.2))
        else if e = 'r' then (readStrChars cs2).map (fun p => ('\r' :: p.1, p.2))
        else if e = 't' then (readStrChars cs2).map (fun p => ('\t' :: p.1, p.2))
        else if e = 'u' then
          match cs2 with
          | h1 :: h2 :: h3 :: h4 :: cs3 =>
            match hexVal h1, hexVal h2, hexVal h3, hexVal h4 with
            | some a, some b, some c3, some d =>
              (readStrChars cs3).map
                (fun p => (Char.ofNat (((a * 16 + b) * 16 + c3) * 16 + d) :: p.1, p.2))
            | _, _, _, _ => none
          | _ => none
        else none
    else if c.toNat < 32 then none
    else (readStrChars cs).map (fun p => (c :: p.1, p.2))

/-- Longest prefix of decimal digits together with the remaining input. -/
def readDigits : List Char → List Char × List Char
  | [] => ([], [])
  | c :: cs =>
    if c.isDigit then
      let p := readDigits cs
      (c :: p.1, p.2)
    else ([], c :: cs)

def digitsToNat (ds : List Char) : Nat := ds.foldl (fun a c => a * 10 + (c.toNat - 48)) 0

/-- Expect a literal run of characters, returning the rest of the input. -/
def dropLit : List Char → List Char → Option (List Char)
  | [], l => some l
  | _ :: _, [] => none
  | c :: cs, x :: xs => if x = c then dropLit cs xs else none

/-- Optional exponent part of a JSON number; returns its literal characters. -/
def readExpPart (l : List Char) : Option (List Char × List Char) :=
  if l.head? = some 'e' ∨ l.head? = some 'E' then
    let e : Char := if l.head? = some 'e' then 'e' else 'E'
    let l1 := l.tail
    let sign : List Char :=
      if l1.head? = some '+' then ['+'] else if l1.head? = some '-' then ['-'] else []
    let l2 := if sign = [] then l1 else l1.tail
    let p := readDigits l2
    if p.1 = [] then none else some (e :: sign ++ p.1, p.2)
  else some ([], l)

/-- Read a JSON number (integer or float literal), starting at a '-' or digit.
A non-integral literal is kept as its source text in `fnum`. -/
def readNumber (l : List Char) : Option (Json × List Char) :=
  let neg : Bool := l.head? = some '-'
  let l1 := if neg then l.tail else l
  let p := readDigits l1
  if p.1 = [] then none
  else if p.1.head? = some '0' ∧ p.1.length > 1 then none
  else if p.2.head? = some '.' then
    let q := readDigits p.2.tail
    if q.1 = [] then none
    else
      match readExpPart q.2 with
      | some (ex, l4) =>
        some (.fnum ⟨(if neg then ['-'] else []) ++ p.1 ++ '.' :: q.1 ++ ex⟩, l4)
      | none => none
  else
    match readExpPart p.2 with
    | some ([], _) =>
      some (.num (if neg then -(digitsToNat p.1 : Int) else (digitsToNat p.1 : Int)), p.2)
    | some (ex, l4) =>
      some (.fnum ⟨(if neg then ['-'] else []) ++ p.1 ++ ex⟩, l4)
    | none => none

/-- Parser modes: a single value, the element list of an array after its
opening bracket, or the field list of an object after its opening brace. -/
inductive PMode where
  | val
  | items
  | fields

/-- Fuel-indexed JSON parser.  In mode `.val` it parses one JSON value; in
mode `.items` a non-empty comma-separated element list terminated by a
closing bracket (result wrapped in `.arr`); in mode `.fields` the non-empty
key-value list of an object terminated by a closing brace (result wrapped in
`.obj`). -/
def parseP : Nat → PMode → List Char → Option (Json × List Char)
  | 0, _, _ => none
  | Nat.succ f, .val, l =>
    match skipWs l with
    | [] => none
    | c :: cs =>
      if c = '"' then
        match readStrChars cs with
        | some (s, r) => some (.str ⟨s⟩, r)
        | none => none
      else if c = '[' then
        match skipWs cs with
        | [] => none
        | d :: ds =>
          if d = ']' then some (.arr [], ds)
          else parseP f .items (d :: ds)
      else if c = lbrace then
        match skipWs cs with
        | [] => none
        | d :: ds =>
          if d = rbrace then some (.obj [], ds)
          else parseP f .fields (d :: ds)
      else if c = 't' then
        match dropLit ['r', 'u', 'e'] cs with
        | some r => some (.bool true, r)
        | none => none
      else if c = 'f' then
        match dropLit ['a', 'l', 's', 'e'] cs with
        | some r => some (.bool false, r)
        | none => none
      else if c = 'n' then
        match dropLit ['u', 'l', 'l'] cs with
        | some r => some (.null, r)
        | none => none
      else if c = 'N' then
        match dropLit ['a', 'N'] cs with
        | some r => some (.fnum "NaN", r)
        | none => none
      else if c = 'I' then
        match dropLit ['n', 'f', 'i', 'n', 'i', 't', 'y'] cs with
        | some r => some (.fnum "Infinity", r)
        | none => none
      else if c = '-' ∧ cs.head? = some 'I' then
        match dropLit ['I', 'n', 'f', 'i', 'n', 'i', 't', 'y'] cs with
        | some r => some (.fnum "-Infinity", r)
        | none => none
      else if c = '-' ∨ c.isDigit then readNumber (c :: cs)
      else none
  | Nat.succ f, .items, l =>
    match parseP f .val l with
    | some (x, r) =>
      (match skipWs r with
       | ',' :: r2 =>
         (match parseP f .items r2 with
          | some (.arr xs, r3) => some (.arr (x :: xs), r3)
          | _ => none)
       | c :: r2 =>
         if c = ']' then some (.arr [x], r2) else none
       | [] => none)
    | none => none
  | Nat.succ f, .fields, l =>
    match skipWs l with
    | c :: cs =>
      if c = '"' then
        match readStrChars cs with
        | some (k, r) =>
          (match skipWs r with
           | ':' :: r2 =>
             (match parseP f .val r2 with
              | some (v, r3) =>
                (match skipWs r3 with
                 | ',' :: r4 =>
                   (match parseP f .fields r4 with
                    | some (.obj fs, r5) => some (.obj ((⟨k⟩, v) :: fs), r5)
                    | _ => none)
                 | d :: r4 =>
                   if d = rbrace then some (.obj [(⟨k⟩, v)], r4) else none
                 | [] => none)
              | none => none)
           | _ => none)
        | none => none
      else none
    | [] => none

/-- Decode one line as a JSON value, as json.loads does: parse a single value
and require that only whitespace remains. -/
def parseJson (s : String) : Option Json :=
  match parseP (s.data.length + 1) .val s.data with
  | some (j, rest) => if skipWs rest = [] then some j else none
  | none => none

/-- Characters that json.dumps emits unchanged or with a simple backslash
escape: printable ASCII.  Strings made of these round-trip through the
codec. -/
def wfChar (c : Char) : Bool := 32 ≤ c.toNat && c.toNat ≤ 126

mutual
/-- JSON values whose encoding round-trips: printable-ASCII strings and exact
integers (float literals are excluded). -/
def wfJson : Json → Bool
  | .null => true
  | .bool _ => true
  | .num _ => true
  | .fnum _ => false
  | .str s => s.data.all wfChar
  | .arr xs => wfList xs
  | .obj fs => wfFields fs

def wfList : List Json → Bool
  | [] => true
  | x :: xs => wfJson x && wfList xs

def wfFields : List (String × Json) → Bool
  | [] => true
  | (k, v) :: fs => k.data.all wfChar && wfJson v && wfFields fs
end

/-- Input on which a JSON number literal ends: next character (if any) cannot
extend the literal. -/
def numDelim (l : List Char) : Bool :=
  match l.head? with
  | none => true
  | some c => !c.isDigit && !(c = '.') && !(c = 'e') && !(c = 'E')

/-! ## Python dictionary and string semantics used by the hosts -/

/-- Python type name of a decoded JSON value, as it appears in
AttributeError and TypeError messages. -/
def pyTypeName : Json → String
  | .null => "NoneType"
  | .bool _ => "bool"
  | .num _ => "int"
  | .fnum _ => "float"
  | .str _ => "str"
  | .arr _ => "list"
  | .obj _ => "dict"

/-- Look a key up in an object's field list.  Searching the tail first makes
a duplicated key resolve to its last occurrence, which is the value a Python
dict built by json.loads would hold. -/
def jlookup : List (String × Json) → String → Option Json
  | [], _ => none
  | (k, v) :: fs, key =>
    match jlookup fs key with
    | some r => some r
    | none => if k = key then some v else none

def Json.isObj : Json → Bool
  | .obj _ => true
  | _ => false

def hasKey (fs : List (String × Json)) (k : String) : Bool := (jlookup fs k).isSome

/-- Request envelope shape: an id, a method, and no response payloads. -/
def isRequestEnv : Json → Bool
  | .obj fs => hasKey fs "id" && hasKey fs "method" && !hasKey fs "result" && !hasKey fs "error"
  | _ => false

/-- Notification envelope shape: a method but no id and no response payloads. -/
def isNotificationEnv : Json → Bool
  | .obj fs => !hasKey fs "id" && hasKey fs "method" && !hasKey fs "result" && !hasKey fs "error"
  | _ => false

/-- Success response envelope shape: an id and a result, nothing else. -/
def isSuccessEnv : Json → Bool
  | .obj fs => hasKey fs "id" && !hasKey fs "method" && hasKey fs "result" && !hasKey fs "error"
  | _ => false

/-- Error response envelope shape: an id and an error object, nothing else. -/
def isErrorEnv : Json → Bool
  | .obj fs => hasKey fs "id" && !hasKey fs "method" && !hasKey fs "result" && hasKey fs "error"
  | _ => false

/-- Representable envelope: one of the four variants of the data model, built from exact
integers and printable-ASCII strings. -/
def representableEnvelope (j : Json) : Bool :=
  (isRequestEnv j || isNotificationEnv j || isSuccessEnv j || isErrorEnv j) && wfJson j


/-- Field of an object, with Python's dict.get default of None; null on
non-objects (total helper for stating theorems). -/
def jget (j : Json) (key : String) : Json :=
  match j with
  | .obj fs => (jlookup fs key).getD .null
  | _ => .null

/-- Python `x.get(key)`: returns the value or None for a dict, raises
AttributeError for any other receiver. -/
def pyDictGet (j : Json) (key : String) : Except String Json :=
  match j with
  | .obj fs => .ok ((jlookup fs key).getD .null)
  | _ => .error ("\x27" ++ pyTypeName j ++ "\x27 object has no attribute \x27get\x27")

/-- Python `x.get(key, default)`. -/
def pyDictGetD (j : Json) (key : String) (d : Json) : Except String Json :=
  match j with
  | .obj fs => .ok ((jlookup fs key).getD d)
  | _ => .error ("\x27" ++ pyTypeName j ++ "\x27 object has no attribute \x27get\x27")

mutual
/-- Python repr() of a decoded JSON value (used by str() on lists/dicts). -/
def pyRepr : Json → String
  | .null => "None"
  | .bool true => "True"
  | .bool false => "False"
  | .num n => ⟨intChars n⟩
  | .fnum s => s
  | .str s => "\x27" ++ s ++ "\x27"
  | .arr [] => "[]"
  | .arr (x :: xs) => "[" ++ pyRepr x ++ pyReprItems xs ++ "]"
  | .obj [] => "\x7b\x7d"
  | .obj (f :: fs) => "\x7b" ++ pyReprField f ++ pyReprFields fs ++ "\x7d"

def pyReprItems : List Json → String
  | [] => ""
  | x :: xs => ", " ++ pyRepr x ++ pyReprItems xs

def pyReprField : String × Json → String
  | (k, v) => "\x27" ++ k ++ "\x27: " ++ pyRepr v

def pyReprFields : List (String × Json) → String
  | [] => ""
  | f :: fs => ", " ++ pyReprField f ++ pyReprFields fs
end

/-- Python str() of a decoded JSON value, as an f-string interpolates it. -/
def pyFStr : Json → String
  | .null => "None"
  | .bool true => "True"
  | .bool false => "False"
  | .num n => ⟨intChars n⟩
  | .fnum s => s
  | .str s => s
  | .arr xs => pyRepr (.arr xs)
  | .obj fs => pyRepr (.obj fs)

/-- Python `a + b` on decoded JSON values: numeric addition (bool counts as
int), sequence concatenation, TypeError otherwise.  Float literals are kept
symbolic in this model, so addition on them is not interpreted. -/
def pyAdd (a b : Json) : Except String Json :=
  match a, b with
  | .num x, .num y => .ok (.num (x + y))
  | .num x, .bool y => .ok (.num (x + (if y then 1 else 0)))
  | .bool x, .num y => .ok (.num ((if x then 1 else 0) + y))
  | .bool x, .bool y => .ok (.num ((if x then 1 else 0) + (if y then 1 else 0)))
  | .str x, .str y => .ok (.str (x ++ y))
  | .arr x, .arr y => .ok (.arr (x ++ y))
  | _, _ =>
    .error ("unsupported operand type(s) for +: \x27" ++ pyTypeName a ++ "\x27 and \x27" ++
      pyTypeName b ++ "\x27")

/-- Python `x.upper()`: uppercases a str, raises AttributeError otherwise. -/
def pyUpper (j : Json) : Except String String :=
  match j with
  | .str s => .ok s.toUpper
  | _ => .error ("\x27" ++ pyTypeName j ++ "\x27 object has no attribute \x27upper\x27")

/-- Characters Python str.strip() removes by default. -/
def isPySpace (c : Char) : Bool :=
  c = ' ' || c = '\t' || c = '\n' || c = '\r' || c = '\x0b' || c = '\x0c'

/-- Python str.strip(). -/
def pyStrip (s : String) : String :=
  ⟨((s.data.dropWhile isPySpace).reverse.dropWhile isPySpace).reverse⟩

/-! ## Shared JSON-RPC response shapes

These mirror the dict literals each Python host builds. -/

/-- Successful JSON-RPC response envelope, key order as in the sources. -/
def successResponse (rid res : Json) : Json :=
  .obj [("jsonrpc", .str "2.0"), ("id", rid), ("result", res)]

/-- Error response envelope built by each host's error_response method. -/
def errorResponse (rid : Json) (code : Int) (msg : String) : Json :=
  .obj [("jsonrpc", .str "2.0"), ("id", rid),
        ("error", .obj [("code", .num code), ("message", .str msg)])]

/-- Uniform tool-call result payload: one text content item plus is_error. -/
def toolResult (text : String) (isErr : Bool) : Json :=
  .obj [("content", .arr [.obj [("type", .str "text"), ("text", .str text)]]),
        ("is_error", .bool isErr)]

/-! ## MockMCPServer (src/test/mock_mcp_server.py) -/

/-- Mutable state of a MockMCPServer instance as set up in its init method. -/
structure MockState where
  initialized : Bool
  tools : Json

/-- External inputs the mock server reads: datetime.now().isoformat(). -/
structure MockEnv where
  nowIso : String

/-- The three tool descriptors registered by MockMCPServer. -/
def mockToolsDef : Json := .arr [
  .obj [("name", .str "echo"),
        ("description", .str "Echoes back the input"),
        ("inputSchema", .obj [
          ("type", .str "object"),
          ("properties", .obj [("message", .obj [("type", .str "string")])]),
          ("required", .arr [.str "message"])])],
  .obj [("name", .str "add"),
        ("description", .str "Adds two numbers"),
        ("inputSchema", .obj [
          ("type", .str "object"),
          ("properties", .obj [
            ("a", .obj [("type", .str "number")]),
            ("b", .obj [("type", .str "number")])]),
          ("required", .arr [.str "a", .str "b"])])],
  .obj [("name", .str "get_time"),
        ("description", .str "Gets the current time"),
        ("inputSchema", .obj [
          ("type", .str "object"),
          ("properties", .obj [])])]]

/-- State of a freshly constructed MockMCPServer. -/
def mockStart : MockState := { initialized := false, tools := mockToolsDef }

/-- Result payload of the mock server's handle_initialize. -/
def mockHandshakeResult : Json := .obj [
  ("protocolVersion", .str "2024-11-05"),
  ("serverInfo", .obj [("name", .str "mock-mcp-server"), ("version", .str "1.0.0")]),
  ("capabilities", .obj [("tools", .obj [("listChanged", .bool true)])])]

/-- The mock server's handle_initialize; the params.get in its logging
f-string raises if params is not a dict. -/
def mockHandleHandshake (rid params : Json) : Except String (Option Json) :=
  match pyDictGetD params "client_info" (.obj []) with
  | .error e => .error e
  | .ok _ => .ok (some (successResponse rid mockHandshakeResult))

/-- The mock server's handle_tool_call. -/
def mockToolCall (env : MockEnv) (rid params : Json) : Except String (Option Json) :=
  match pyDictGet params "name" with
  | .error e => .error e
  | .ok toolName =>
    match pyDictGetD params "arguments" (.obj []) with
    | .error e => .error e
    | .ok args =>
      if toolName == Json.str "echo" then
        match pyDictGetD args "message" (.str "") with
        | .error e => .error e
        | .ok message =>
          .ok (some (successResponse rid (toolResult ("Echo: " ++ pyFStr message) false)))
      else if toolName == Json.str "add" then
        match pyDictGetD args "a" (.num 0) with
        | .error e => .error e
        | .ok a =>
          match pyDictGetD args "b" (.num 0) with
          | .error e => .error e
          | .ok b =>
            match pyAdd a b with
            | .error e => .error e
            | .ok sum =>
              .ok (some (successResponse rid (toolResult ("Result: " ++ pyFStr sum) false)))
      else if toolName == Json.str "get_time" then
        .ok (some (successResponse rid (toolResult ("Current time: " ++ env.nowIso) false)))
      else
        .ok (some (errorResponse rid (-32602) ("Unknown tool: " ++ pyFStr toolName)))

/-- The mock server's handle_request: dispatch on the method field.  The
returned state is the instance state after the call; an `.error` result is an
uncaught Python exception (none of the mutating branches raises, so the state
accompanying an error is the entry state). -/
def mockHandle (env : MockEnv) (s : MockState) (req : Json) :
    MockState × Except String (Option Json) :=
  match pyDictGet req "method" with
  | .error e => (s, .error e)
  | .ok method =>
    match pyDictGetD req "params" (.obj []) with
    | .error e => (s, .error e)
    | .ok params =>
      match pyDictGet req "id" with
      | .error e => (s, .error e)
      | .ok rid =>
        if method == Json.str "initialize" then
          (s, mockHandleHandshake rid params)
        else if method == Json.str "initialized" then
          ({ s with initialized := true }, .ok none)
        else if method == Json.str "tools/list" then
          (s, .ok (some (successResponse rid (.obj [("tools", s.tools)]))))
        else if method == Json.str "tools/call" then
          (s, mockToolCall env rid params)
        else
          (s, .ok (some (errorResponse rid (-32601) ("Method not found: " ++ pyFStr method))))

/-- One iteration of the mock server's run loop body on an already stripped,
non-blank line: json.loads, dispatch, and the two except arms. -/
def mockStepLine (env : MockEnv) (s : MockState) (line : String) : MockState × Option String :=
  match parseJson line with
  | none => (s, some (jsonToLine (errorResponse .null (-32700) "Parse error")))
  | some req =>
    match mockHandle env s req with
    | (s', .ok none) => (s', none)
    | (s', .ok (some resp)) => (s', some (jsonToLine resp))
    | (s', .error e) => (s', some (jsonToLine (errorResponse .null (-32603) e)))

/-- The mock server's run loop over a list of input lines, producing the list
of output lines.  The environment is a stream indexed by line number so each
iteration may observe a different clock. -/
def mockRun (envs : Nat → MockEnv) (k : Nat) (s : MockState) : List String → List String
  | [] => []
  | line :: rest =>
    let t := pyStrip line
    if t = "" then mockRun envs (k + 1) s rest
    else
      let p := mockStepLine (envs k) s t
      match p.2 with
      | some out => out :: mockRun envs (k + 1) p.1 rest
      | none => mockRun envs (k + 1) p.1 rest

/-! ## HttpMCPServer (src/test/http_mcp_server.py) -/

/-- Mutable state of an HttpMCPServer instance. -/
structure HttpState where
  initialized : Bool
  tools : Json

/-- External inputs of the http server's tool handlers: the UTC clock (as
seconds since the epoch), the random weather draw, the network fetch, and the
arithmetic evaluator.  `fetch` stands for urlopen on the built request; it
returns the status code and decoded body, or the text of the exception it
raised.  `calc` is modelled from the spec: expression evaluation internals
are out of scope (spec section 1), so it stands for ast.parse plus eval_expr,
returning the computed value or the text of the exception raised. -/
structure HttpEnv where
  nowEpoch : Int
  randTemp : Int
  randCond : String
  fetch : String → Except String (Int × String)
  calcEval : String → Except String Json

/-- The four tool descriptors registered by HttpMCPServer (note the
snake_case input_schema key, unlike the mock server). -/
def httpToolsDef : Json := .arr [
  .obj [("name", .str "fetch_url"),
        ("description", .str "Fetch content from a URL"),
        ("input_schema", .obj [
          ("type", .str "object"),
          ("properties", .obj [
            ("url", .obj [("type", .str "string"), ("description", .str "The URL to fetch")])]),
          ("required", .arr [.str "url"])])],
  .obj [("name", .str "check_weather"),
        ("description", .str "Get current weather (mock data)"),
        ("input_schema", .obj [
          ("type", .str "object"),
          ("properties", .obj [
            ("city", .obj [("type", .str "string"), ("description", .str "City name")])]),
          ("required", .arr [.str "city"])])],
  .obj [("name", .str "get_time"),
        ("description", .str "Get current time in various timezones"),
        ("input_schema", .obj [
          ("type", .str "object"),
          ("properties", .obj [
            ("timezone", .obj [("type", .str "string"),
                               ("description", .str "Timezone (e.g., UTC, EST, PST)")])])])],
  .obj [("name", .str "calculate"),
        ("description", .str "Perform basic calculations"),
        ("input_schema", .obj [
          ("type", .str "object"),
          ("properties", .obj [
            ("expression", .obj [("type", .str "string"),
                                 ("description", .str "Math expression to evaluate")])]),
          ("required", .arr [.str "expression"])])]]

/-- State of a freshly constructed HttpMCPServer. -/
def httpStart : HttpState := { initialized := false, tools := httpToolsDef }

/-- Result payload of the http server's handle_initialize (snake_case keys,
unlike the mock server). -/
def httpHandshakeResult : Json := .obj [
  ("protocol_version", .str "2024-11-05"),
  ("server_info", .obj [("name", .str "http-mcp-server"), ("version", .str "1.0.0")]),
  ("capabilities", .obj [("tools", .obj [("list_changed", .bool true)])])]

def httpHandleHandshake (rid params : Json) : Except String (Option Json) :=
  match pyDictGetD params "client_info" (.obj []) with
  | .error e => .error e
  | .ok _ => .ok (some (successResponse rid httpHandshakeResult))

/-- Characters allowed in a URL scheme by urllib.parse. -/
def schemeChar (c : Char) : Bool := c.isAlpha || c.isDigit || c = '+' || c = '-' || c = '.'

/-- Strip a leading "scheme:" from a URL if present, as urlsplit does. -/
def urlAfterScheme (l : List Char) : List Char :=
  match l.findIdx? (· = ':') with
  | some i =>
    if 0 < i ∧ (l.take i).all schemeChar ∧ (l.head?.map Char.isAlpha).getD false
    then l.drop (i + 1) else l
  | none => l

/-- urlparse(url).netloc: present only when the remainder starts with two
slashes, and extends to the next slash, question mark or hash. -/
def urlNetloc (url : String) : String :=
  match urlAfterScheme url.data with
  | '/' :: '/' :: r => ⟨r.takeWhile (fun c => ¬(c = '/' ∨ c = '?' ∨ c = '#'))⟩
  | _ => ""

/-- Substring containment on character lists, as Python's `in` on str. -/
def containsSub (hay needle : List Char) : Bool :=
  if needle.isPrefixOf hay then true
  else
    match hay with
    | [] => false
    | _ :: t => containsSub t needle

/-- Domains the http server's fetch_url allows. -/
def safeDomains : List String := ["httpbin.org", "jsonplaceholder.typicode.com", "api.github.com"]

/-- The http server's fetch_url handler.  The args.get prologue sits outside
the try block and can raise; everything after it is inside try/except, so all
failures there surface as is_error results. -/
def httpFetchUrl (env : HttpEnv) (args : Json) : Except String Json :=
  match pyDictGetD args "url" (.str "") with
  | .error e => .error e
  | .ok urlJ =>
    match urlJ with
    | .str url =>
      let netloc := urlNetloc url
      if ¬ (safeDomains.any (fun d => containsSub netloc.data d.data)) then
        .ok (toolResult ("Error: URL domain \x27" ++ netloc ++ "\x27 not in safe list for testing")
          true)
      else
        match env.fetch url with
        | .ok sc =>
          .ok (toolResult ("Status: " ++ pyFStr (.num sc.1) ++
            "\nContent (first 500 chars):\n" ++ ⟨sc.2.data.take 500⟩) false)
        | .error e => .ok (toolResult ("Error fetching URL: " ++ e) true)
    | _ =>
      .ok (toolResult ("Error fetching URL: Cannot mix str and non-str arguments") true)

/-- The http server's check_weather handler (mock data from the random
draws); the args.get can raise on a non-dict argument mapping. -/
def httpCheckWeather (env : HttpEnv) (args : Json) : Except String Json :=
  match pyDictGetD args "city" (.str "Unknown") with
  | .error e => .error e
  | .ok city =>
    .ok (toolResult ("Weather in " ++ pyFStr city ++ ": " ++ pyFStr (.num env.randTemp) ++
      "\xC2\xB0C, " ++ env.randCond) false)

def pad2 (n : Nat) : String := if n < 10 then "0" ++ (⟨natChars n⟩ : String) else ⟨natChars n⟩

def pad4 (n : Int) : String :=
  if n < 0 then "-" ++ (⟨natChars n.natAbs⟩ : String)
  else
    let s : List Char := natChars n.toNat
    ⟨List.replicate (4 - s.length) '0' ++ s⟩

/-- Days-to-civil-date conversion (proleptic Gregorian calendar), used to
model datetime's strftime. -/
def civilFromDays (z0 : Int) : Int × Nat × Nat :=
  let z := z0 + 719468
  let era := z.fdiv 146097
  let doe := (z - era * 146097).toNat
  let yoe := (doe - doe / 1460 + doe / 36524 - doe / 146096) / 365
  let y := (yoe : Int) + era * 400
  let doy := doe - (365 * yoe + yoe / 4 - yoe / 100)
  let mp := (5 * doy + 2) / 153
  let d := doy - (153 * mp + 2) / 5 + 1
  let m := if mp < 10 then mp + 3 else mp - 9
  (if m ≤ 2 then y + 1 else y, m, d)

/-- strftime of an epoch-seconds instant with format %Y-%m-%d %H:%M:%S. -/
def fmtYmdHms (t : Int) : String :=
  let days := t.fdiv 86400
  let secs := (t - days * 86400).toNat
  let c := civilFromDays days
  pad4 c.1 ++ "-" ++ pad2 c.2.1 ++ "-" ++ pad2 c.2.2 ++ " " ++
    pad2 (secs / 3600) ++ ":" ++ pad2 (secs % 3600 / 60) ++ ":" ++ pad2 (secs % 60)

/-- The http server's get_time handler.  It has no try/except: the .upper()
call raises AttributeError when the timezone argument is not a string, and
that exception escapes the handler. -/
def httpGetTime (env : HttpEnv) (args : Json) : Except String Json :=
  match pyDictGetD args "timezone" (.str "UTC") with
  | .error e => .error e
  | .ok tzJ =>
    match pyUpper tzJ with
    | .error e => .error e
    | .ok up =>
      let offsetHours : Int :=
        if up = "UTC" then 0
        else if up = "EST" then -5
        else if up = "PST" then -8
        else if up = "CET" then 1
        else if up = "JST" then 9
        else 0
      let adjusted := env.nowEpoch + offsetHours * 3600
      .ok (toolResult ("Current time in " ++ pyFStr tzJ ++ ": " ++ fmtYmdHms adjusted) false)

/-- The http server's calculate handler.  The args.get prologue is outside
the try block; the evaluation itself is inside it, so evaluation failures
surface as is_error results. -/
def httpCalculate (env : HttpEnv) (args : Json) : Except String Json :=
  match pyDictGetD args "expression" (.str "") with
  | .error e => .error e
  | .ok exprJ =>
    match exprJ with
    | .str e =>
      match env.calcEval e with
      | .ok v => .ok (toolResult (pyFStr exprJ ++ " = " ++ pyFStr v) false)
      | .error m => .ok (toolResult ("Error evaluating expression: " ++ m) true)
    | _ =>
      .ok (toolResult ("Error evaluating expression: expected str, bytes or AST object") true)

/-- The http server's handle_tool_call. -/
def httpToolCall (env : HttpEnv) (rid params : Json) : Except String (Option Json) :=
  match pyDictGet params "name" with
  | .error e => .error e
  | .ok toolName =>
    match pyDictGetD params "arguments" (.obj []) with
    | .error e => .error e
    | .ok args =>
      if toolName == Json.str "fetch_url" then
        match httpFetchUrl env args with
        | .error e => .error e
        | .ok r => .ok (some (successResponse rid r))
      else if toolName == Json.str "check_weather" then
        match httpCheckWeather env args with
        | .error e => .error e
        | .ok r => .ok (some (successResponse rid r))
      else if toolName == Json.str "get_time" then
        match httpGetTime env args with
        | .error e => .error e
        | .ok r => .ok (some (successResponse rid r))
      else if toolName == Json.str "calculate" then
        match httpCalculate env args with
        | .error e => .error e
        | .ok r => .ok (some (successResponse rid r))
      else
        .ok (some (errorResponse rid (-32602) ("Unknown tool: " ++ pyFStr toolName)))

/-- The http server's handle_request. -/
def httpHandle (env : HttpEnv) (s : HttpState) (req : Json) :
    HttpState × Except String (Option Json) :=
  match pyDictGet req "method" with
  | .error e => (s, .error e)
  | .ok method =>
    match pyDictGetD req "params" (.obj []) with
    | .error e => (s, .error e)
    | .ok params =>
      match pyDictGet req "id" with
      | .error e => (s, .error e)
      | .ok rid =>
        if method == Json.str "initialize" then
          (s, httpHandleHandshake rid params)
        else if method == Json.str "initialized" then
          ({ s with initialized := true }, .ok none)
        else if method == Json.str "tools/list" then
          (s, .ok (some (successResponse rid (.obj [("tools", s.tools)]))))
        else if method == Json.str "tools/call" then
          (s, httpToolCall env rid params)
        else
          (s, .ok (some (errorResponse rid (-32601) ("Method not found: " ++ pyFStr method))))

/-- One iteration of the http server's run loop body on an already stripped,
non-blank line. -/
def httpStepLine (env : HttpEnv) (s : HttpState) (line : String) : HttpState × Option String :=
  match parseJson line with
  | none => (s, some (jsonToLine (errorResponse .null (-32700) "Parse error")))
  | some req =>
    match httpHandle env s req with
    | (s', .ok none) => (s', none)
    | (s', .ok (some resp)) => (s', some (jsonToLine resp))
    | (s', .error e) => (s', some (jsonToLine (errorResponse .null (-32603) e)))

/-- The http server's run loop over a list of input lines. -/
def httpRun (envs : Nat → HttpEnv) (k : Nat) (s : HttpState) : List String → List String
  | [] => []
  | line :: rest =>
    let t := pyStrip line
    if t = "" then httpRun envs (k + 1) s rest
    else
      let p := httpStepLine (envs k) s t
      match p.2 with
      | some out => out :: httpRun envs (k + 1) p.1 rest
      | none => httpRun envs (k + 1) p.1 rest

/-! ## MCPToolsClient (src/docker/mcp-tools-client.py) -/

/-- Relay state: whether the server_process handle is present. -/
structure RelayState where
  serverProc : Bool

/-- Relay environment: whether subprocess.Popen succeeds, and the child's
response behaviour — for a message written to the child's stdin (without its
trailing newline), the raw readline() result, or none when the pipe
interaction raises.  An empty string models end of stream. -/
structure RelayEnv where
  spawnOk : Bool
  childReply : String → Option String

/-- Observable effects of one relay handle_request call. -/
structure RelayOut where
  state : RelayState
  sentToChild : Option String
  output : String

/-- The relay's send_to_server: write the message plus newline, flush, read
one reply line; falsy replies (exception, end of stream) become None, and a
non-empty reply is stripped. -/
def relaySend (env : RelayEnv) (st : RelayState) (message : String) : Option String :=
  if st.serverProc = false then none
  else
    match env.childReply message with
    | none => none
    | some resp => if resp = "" then none else some (pyStrip resp)

/-- The relay's handle_request on one stripped, non-blank input line:
json.loads, lazy child start, forward, and the error arms.  The logging
f-string's request.get call raises on a non-dict payload, landing in the
generic except arm with code -32603 and id None. -/
def relayHandleLine (env : RelayEnv) (st : RelayState) (requestLine : String) : RelayOut :=
  match parseJson requestLine with
  | none =>
    { state := st, sentToChild := none,
      output := jsonToLine (errorResponse .null (-32700) "Parse error") }
  | some req =>
    match pyDictGet req "method" with
    | .error e =>
      { state := st, sentToChild := none,
        output := jsonToLine (errorResponse .null (-32603) e) }
    | .ok _ =>
      if st.serverProc = false ∧ env.spawnOk = false then
        { state := st, sentToChild := none,
          output := jsonToLine (errorResponse (jget req "id") (-32603)
            "Failed to start MCP server") }
      else
        let st' : RelayState := { serverProc := true }
        match relaySend env st' requestLine with
        | some r =>
          if r = "" then
            { state := st', sentToChild := some (requestLine ++ "\n"),
              output := jsonToLine (errorResponse (jget req "id") (-32603)
                "No response from server") }
          else
            { state := st', sentToChild := some (requestLine ++ "\n"), output := r }
        | none =>
          { state := st', sentToChild := some (requestLine ++ "\n"),
            output := jsonToLine (errorResponse (jget req "id") (-32603)
              "No response from server") }

/-- The relay's run loop over a list of input lines. -/
def relayRun (envs : Nat → RelayEnv) (k : Nat) (st : RelayState) : List String → List String
  | [] => []
  | line :: rest =>
    let t := pyStrip line
    if t = "" then relayRun envs (k + 1) st rest
    else
      let o := relayHandleLine (envs k) st t
      if o.output = "" then relayRun envs (k + 1) o.state rest
      else o.output :: relayRun envs (k + 1) o.state rest

def envM : MockEnv := { nowIso := "2026-01-01T00:00:00" }
def envH : HttpEnv where
  nowEpoch := 0
  randTemp := 20
  randCond := "Sunny"
  fetch := fun _ => .error "x"
  calcEval := fun _ => .ok (.num 0)


/-- States the mock server can be in after any sequence of input lines,
starting at construction. -/
inductive MockReachable : MockState → Prop where
  | start : MockReachable mockStart
  | step (env : MockEnv) (s : MockState) (line : String) :
      MockReachable s → MockReachable (mockStepLine env s line).1

/-- States the http server can be in after any sequence of input lines. -/
inductive HttpReachable : HttpState → Prop where
  | start : HttpReachable httpStart
  | step (env : HttpEnv) (s : HttpState) (line : String) :
      HttpReachable s → HttpReachable (httpStepLine env s line).1

/-- Sample request envelope used for the round-trip witness. -/
def sampleRequest : Json :=
  .obj [("jsonrpc", .str "2.0"), ("id", .num 1), ("method", .str "tools/list"),
        ("params", .obj [])]

/-- Sample notification envelope (no id) used for the round-trip witness. -/
def sampleNotification : Json :=
  .obj [("jsonrpc", .str "2.0"), ("method", .str "initialized")]

/-- Sample success response envelope used for the round-trip witness. -/
def sampleSuccess : Json :=
  .obj [("jsonrpc", .str "2.0"), ("id", .num 1), ("result", .obj [("tools", .arr [])])]

/-- Sample error response envelope used for the round-trip witness. -/
def sampleError : Json := errorResponse (.num 5) (-32603) "Failed to start MCP server"

/-! ## Basic lemmas -/

mutual
theorem Json.beq_iff : ∀ a b : Json, Json.beq a b = true ↔ a = b
  | .null, b => by cases b <;> simp [Json.beq]
  | .bool x, b => by cases b <;> simp [Json.beq]
  | .num x, b => by cases b <;> simp [Json.beq]
  | .fnum x, b => by cases b <;> simp [Json.beq]
  | .str x, b => by cases b <;> simp [Json.beq]
  | .arr xs, b => by
    cases b <;> simp [Json.beq]
    exact Json.beqList_iff xs _
  | .obj xs, b => by
    cases b <;> simp [Json.beq]
    exact Json.beqFields_iff xs _

theorem Json.beqList_iff : ∀ xs ys : List Json, Json.beqList xs ys = true ↔ xs = ys
  | [], ys => by cases ys <;> simp [Json.beqList]
  | x :: xs, ys => by
    cases ys with
    | nil => simp [Json.beqList]
    | cons y ys => simp [Json.beqList, Json.beq_iff x y, Json.beqList_iff xs ys]

theorem Json.beqFields_iff : ∀ xs ys : List (String × Json), Json.beqFields xs ys = true ↔ xs = ys
  | [], ys => by cases ys <;> simp [Json.beqFields]
  | (k, v) :: xs, ys => by
    cases ys with
    | nil => simp [Json.beqFields]
    | cons y ys =>
      obtain ⟨k', v'⟩ := y
      simp [Json.beqFields, Json.beq_iff v v', Json.beqFields_iff xs ys, and_assoc]
end


theorem natCharsAux_fuel : ∀ f f' n, n < f → n < f' → natCharsAux f n = natCharsAux f' n := by
  intro f
  induction f with
  | zero => omega
  | succ g ih =>
    intro f' n hf hf'
    cases f' with
    | zero => omega
    | succ g' =>
      simp only [natCharsAux]
      by_cases h10 : n < 10
      · simp [h10]
      · have hlt : n / 10 < n := Nat.div_lt_self (by omega) (by omega)
        simp only [h10, if_false]
        rw [ih g' (n / 10) (by omega) (by omega)]

theorem natChars_unfold (n : Nat) :
    natChars n = if n < 10 then [digitChar n] else natChars (n / 10) ++ [digitChar (n % 10)] := by
  show natCharsAux (n + 1) n = _
  simp only [natCharsAux]
  by_cases h10 : n < 10
  · simp [h10]
  · have hlt : n / 10 < n := Nat.div_lt_self (by omega) (by omega)
    simp only [h10, if_false]
    rw [natCharsAux_fuel n (n / 10 + 1) (n / 10) (by omega) (by omega)]
    rfl


/-! ## Codec round-trip lemmas -/

theorem skipWs_cons_not {c : Char} (h : isJsonWs c = false) (l : List Char) :
    skipWs (c :: l) = c :: l := by
  simp [skipWs, List.dropWhile_cons, h]

theorem dropLit_append (lit rest : List Char) : dropLit lit (lit ++ rest) = some rest := by
  induction lit with
  | nil => rfl
  | cons c cs ih => simp [dropLit, ih]

theorem readStr_enc (s : List Char) (h : s.all wfChar = true) (rest : List Char) :
    readStrChars (encStrChars s ++ '"' :: rest) = some (s, rest) := by
  induction s with
  | nil =>
    show readStrChars ('"' :: rest) = some ([], rest)
    rw [readStrChars.eq_def]
    simp
  | cons c cs ih =>
    simp only [List.all_cons, Bool.and_eq_true] at h
    obtain ⟨hc, hcs⟩ := h
    specialize ih hcs
    by_cases h1 : c = '"'
    · subst h1
      have hesc : escChar '"' = ['\\', '"'] := by decide
      simp only [encStrChars, hesc, List.cons_append, List.append_assoc]
      rw [readStrChars.eq_def]
      simp [ih]
    · by_cases h2 : c = '\\'
      · subst h2
        have hesc : escChar '\\' = ['\\', '\\'] := by decide
        simp only [encStrChars, hesc, List.cons_append, List.append_assoc]
        rw [readStrChars.eq_def]
        simp [ih]
      · have hge : ¬ c.toNat < 32 := by
          simp only [wfChar, Bool.and_eq_true, decide_eq_true_eq] at hc
          omega
        simp only [encStrChars, escChar, if_neg h1, if_neg h2, List.cons_append,
          List.singleton_append]
        rw [readStrChars.eq_def]
        simp [h1, h2, hge, ih]

theorem digitChar_isDigit {d : Nat} (h : d < 10) : (digitChar d).isDigit = true := by
  interval_cases d <;> decide

theorem digitChar_toNat {d : Nat} (h : d < 10) : (digitChar d).toNat = 48 + d := by
  interval_cases d <;> decide

theorem natChars_all_digits (n : Nat) : (natChars n).all Char.isDigit = true := by
  induction n using Nat.strong_induction_on with
  | _ n ih =>
    rw [natChars_unfold]
    by_cases h : n < 10
    · rw [if_pos h]
      simp [digitChar_isDigit h]
    · rw [if_neg h]
      have hlt : n / 10 < n := Nat.div_lt_self (by omega) (by omega)
      have h2 : n % 10 < 10 := Nat.mod_lt _ (by omega)
      simp [List.all_append, ih _ hlt, digitChar_isDigit h2]

theorem natChars_ne_nil (n : Nat) : natChars n ≠ [] := by
  rw [natChars_unfold]
  by_cases h : n < 10 <;> simp [h]

theorem natChars_head_ne_zero (n : Nat) (hn : n ≠ 0) : (natChars n).head? ≠ some '0' := by
  induction n using Nat.strong_induction_on with
  | _ n ih =>
    rw [natChars_unfold]
    by_cases h : n < 10
    · rw [if_pos h]
      interval_cases n
      · exact absurd rfl hn
      all_goals decide
    · rw [if_neg h]
      have hlt : n / 10 < n := Nat.div_lt_self (by omega) (by omega)
      have h10 : n / 10 ≠ 0 := by omega
      obtain ⟨d, ds, hd⟩ := List.exists_cons_of_ne_nil (natChars_ne_nil (n / 10))
      have := ih _ hlt h10
      rw [hd] at this ⊢
      simpa using this

theorem digitsToNat_append_one (ds : List Char) (c : Char) :
    digitsToNat (ds ++ [c]) = 10 * digitsToNat ds + (c.toNat - 48) := by
  simp [digitsToNat, List.foldl_append]
  ring

theorem digitsToNat_natChars (n : Nat) : digitsToNat (natChars n) = n := by
  induction n using Nat.strong_induction_on with
  | _ n ih =>
    rw [natChars_unfold]
    by_cases h : n < 10
    · rw [if_pos h]
      interval_cases n <;> decide
    · rw [if_neg h]
      have hlt : n / 10 < n := Nat.div_lt_self (by omega) (by omega)
      have h2 : n % 10 < 10 := Nat.mod_lt _ (by omega)
      rw [digitsToNat_append_one, ih _ hlt, digitChar_toNat h2]
      omega

theorem readDigits_exact (ds rest : List Char) (hds : ds.all Char.isDigit = true)
    (hrest : ∀ c, rest.head? = some c → c.isDigit = false) :
    readDigits (ds ++ rest) = (ds, rest) := by
  induction ds with
  | nil =>
    cases rest with
    | nil => rfl
    | cons c t =>
      have := hrest c rfl
      simp [readDigits, this]
  | cons c cs ih =>
    simp only [List.all_cons, Bool.and_eq_true] at hds
    simp [readDigits, hds.1, ih hds.2]

theorem readExpPart_no_e (l : List Char) (h1 : l.head? ≠ some 'e') (h2 : l.head? ≠ some 'E') :
    readExpPart l = some ([], l) := by
  unfold readExpPart
  rw [if_neg]
  rintro (h | h)
  · exact h1 h
  · exact h2 h

theorem isDigit_range {c : Char} (h : c.isDigit = true) : 48 ≤ c.toNat ∧ c.toNat ≤ 57 := by
  simp only [Char.isDigit, Bool.and_eq_true, decide_eq_true_eq] at h
  exact h

theorem char_ne_of_toNat {c d : Char} (h : c.toNat ≠ d.toNat) : c ≠ d :=
  fun he => h (he ▸ rfl)

theorem digit_ne_char {c : Char} (h : c.isDigit = true) (d : Char)
    (hd : d.toNat < 48 ∨ 57 < d.toNat) : c ≠ d := by
  have := isDigit_range h
  exact char_ne_of_toNat (by omega)

theorem digit_not_ws {c : Char} (h : c.isDigit = true) : isJsonWs c = false := by
  have h1 : c ≠ ' ' := digit_ne_char h ' ' (by decide)
  have h2 : c ≠ '\t' := digit_ne_char h '\t' (by decide)
  have h3 : c ≠ '\n' := digit_ne_char h '\n' (by decide)
  have h4 : c ≠ '\r' := digit_ne_char h '\r' (by decide)
  simp [isJsonWs, h1, h2, h3, h4]

theorem numDelim_facts {l : List Char} (h : numDelim l = true) :
    ∀ c, l.head? = some c → c.isDigit = false ∧ c ≠ '.' ∧ c ≠ 'e' ∧ c ≠ 'E' := by
  intro c hc
  cases l with
  | nil => simp at hc
  | cons d t =>
    simp only [List.head?_cons, Option.some.injEq] at hc
    subst hc
    simp only [numDelim, List.head?_cons, Bool.and_eq_true, Bool.not_eq_true',
      decide_eq_false_iff_not] at h
    exact ⟨h.1.1.1, h.1.1.2, h.1.2, h.2⟩

theorem readNumber_int (n : Int) (rest : List Char) (hnd : numDelim rest = true) :
    readNumber (intChars n ++ rest) = some (.num n, rest) := by
  have hrest := numDelim_facts hnd
  have hdig : ∀ c, rest.head? = some c → c.isDigit = false := fun c hc => (hrest c hc).1
  have hnodot : ¬ rest.head? = some '.' := fun hc => absurd rfl (hrest _ hc).2.1
  have hexp : readExpPart rest = some ([], rest) :=
    readExpPart_no_e _ (fun hc => absurd rfl (hrest _ hc).2.2.1)
      (fun hc => absurd rfl (hrest _ hc).2.2.2)
  rcases lt_or_le n 0 with hn | hn
  · -- negative: leading minus sign
    have habs : n.natAbs ≠ 0 := by omega
    have hchars : intChars n = '-' :: natChars n.natAbs := by simp [intChars, hn]
    have hdigits : readDigits (natChars n.natAbs ++ rest) = (natChars n.natAbs, rest) :=
      readDigits_exact _ _ (natChars_all_digits _) hdig
    have hne : (natChars n.natAbs = []) = False := by simp [natChars_ne_nil]
    have hnolz : ((natChars n.natAbs).head? = some '0' ∧ (natChars n.natAbs).length > 1) = False := by
      simp only [eq_iff_iff, iff_false]
      intro hand
      exact natChars_head_ne_zero _ habs hand.1
    rw [hchars]
    simp only [readNumber, List.cons_append, List.head?_cons, List.tail_cons]
    simp [hdigits, hne, hnolz, hnodot, hexp, digitsToNat_natChars]
    rw [abs_of_neg hn, neg_neg]
  · -- nonnegative: bare digits
    have hchars : intChars n = natChars n.toNat := by
      simp [intChars, not_lt.2 hn]
    obtain ⟨d, ds, hd⟩ := List.exists_cons_of_ne_nil (natChars_ne_nil n.toNat)
    have halld := natChars_all_digits n.toNat
    have hddig : d.isDigit = true := by
      rw [hd] at halld
      simp only [List.all_cons, Bool.and_eq_true] at halld
      exact halld.1
    have hdm : d ≠ '-' := digit_ne_char hddig '-' (by decide)
    have hdigits : readDigits (natChars n.toNat ++ rest) = (natChars n.toNat, rest) :=
      readDigits_exact _ _ halld hdig
    have hne : (natChars n.toNat = []) = False := by simp [natChars_ne_nil]
    have hnolz : ((natChars n.toNat).head? = some '0' ∧ (natChars n.toNat).length > 1) = False := by
      simp only [eq_iff_iff, iff_false]
      intro hand
      rcases Nat.eq_zero_or_pos n.toNat with h0 | h0
      · rw [h0] at hand
        have : natChars 0 = ['0'] := by decide
        rw [this] at hand
        simp at hand
      · exact natChars_head_ne_zero _ (by omega) hand.1
    have hhead : ((natChars n.toNat ++ rest).head? = some '-') = False := by
      rw [hd]
      simp [hdm]
    simp only [readNumber, hchars, hhead]
    simp [hdigits, hne, hnolz, hnodot, hexp, digitsToNat_natChars]
    omega

theorem encodeJson_ne_nil (j : Json) (h : wfJson j = true) : encodeJson j ≠ [] := by
  cases j with
  | null => simp [encodeJson]
  | bool b => cases b <;> simp [encodeJson]
  | num n =>
    simp only [encodeJson, intChars]
    by_cases hn : n < 0
    · simp [hn]
    · simp [hn, natChars_ne_nil]
  | fnum s => simp [wfJson] at h
  | str s => simp [encodeJson]
  | arr xs => cases xs <;> simp [encodeJson]
  | obj fs => cases fs <;> simp [encodeJson]

theorem encodeJson_head (j : Json) (h : wfJson j = true) :
    ∃ c cs, encodeJson j = c :: cs ∧ isJsonWs c = false ∧ c ≠ ']' := by
  cases j with
  | null => exact ⟨'n', _, rfl, by decide, by decide⟩
  | bool b =>
    cases b
    · exact ⟨'f', _, rfl, by decide, by decide⟩
    · exact ⟨'t', _, rfl, by decide, by decide⟩
  | num n =>
    by_cases hn : n < 0
    · refine ⟨'-', natChars n.natAbs, ?_, by decide, by decide⟩
      simp [encodeJson, intChars, hn]
    · obtain ⟨d, ds, hd⟩ := List.exists_cons_of_ne_nil (natChars_ne_nil n.toNat)
      have halld := natChars_all_digits n.toNat
      rw [hd] at halld
      simp only [List.all_cons, Bool.and_eq_true] at halld
      refine ⟨d, ds, ?_, digit_not_ws halld.1, digit_ne_char halld.1 ']' (by decide)⟩
      simp [encodeJson, intChars, hn, hd]
  | fnum s => simp [wfJson] at h
  | str s => exact ⟨'"', _, rfl, by decide, by decide⟩
  | arr xs =>
    cases xs
    · exact ⟨'[', _, rfl, by decide, by decide⟩
    · exact ⟨'[', _, rfl, by decide, by decide⟩
  | obj fs =>
    cases fs
    · exact ⟨lbrace, _, rfl, by decide, by decide⟩
    · exact ⟨lbrace, _, rfl, by decide, by decide⟩

theorem skipWs_enc (j : Json) (h : wfJson j = true) (t : List Char) :
    skipWs (encodeJson j ++ t) = encodeJson j ++ t := by
  obtain ⟨c, cs, hc, hw, _⟩ := encodeJson_head j h
  rw [hc, List.cons_append]
  exact skipWs_cons_not hw _

theorem skipWs_space (l : List Char) : skipWs (' ' :: l) = skipWs l := by
  simp [skipWs, List.dropWhile_cons, show isJsonWs ' ' = true from rfl]

theorem parseP_null (f : Nat) (l rest : List Char)
    (hskip : skipWs l = encodeJson .null ++ rest) :
    parseP (f + 1) .val l = some (.null, rest) := by
  simp only [encodeJson, List.cons_append, List.nil_append] at hskip
  simp only [parseP, hskip]
  simp [dropLit, show ('n' = lbrace) = False by decide]

theorem parseP_bool (f : Nat) (b : Bool) (l rest : List Char)
    (hskip : skipWs l = encodeJson (.bool b) ++ rest) :
    parseP (f + 1) .val l = some (.bool b, rest) := by
  cases b <;> simp only [encodeJson, List.cons_append, List.nil_append] at hskip <;>
    simp only [parseP, hskip]
  · simp [dropLit, show ('f' = lbrace) = False by decide]
  · simp [dropLit, show ('t' = lbrace) = False by decide]

theorem parseP_str (f : Nat) (s : String) (l rest : List Char)
    (h : s.data.all wfChar = true)
    (hskip : skipWs l = encodeJson (.str s) ++ rest) :
    parseP (f + 1) .val l = some (.str s, rest) := by
  simp only [encodeJson, List.cons_append, List.append_assoc, List.singleton_append] at hskip
  simp only [parseP, hskip]
  simp [readStr_enc s.data h rest]

theorem parseP_num (f : Nat) (n : Int) (l rest : List Char)
    (hnd : numDelim rest = true)
    (hskip : skipWs l = encodeJson (.num n) ++ rest) :
    parseP (f + 1) .val l = some (.num n, rest) := by
  have hrn := readNumber_int n rest hnd
  rcases lt_or_le n 0 with hn | hn
  · have hc2 : intChars n = '-' :: natChars n.natAbs := by simp [intChars, hn]
    obtain ⟨d, ds, hd⟩ := List.exists_cons_of_ne_nil (natChars_ne_nil n.natAbs)
    have halld := natChars_all_digits n.natAbs
    rw [hd] at halld
    simp only [List.all_cons, Bool.and_eq_true] at halld
    have hddig := halld.1
    have hhead : (natChars n.natAbs ++ rest).head? = some d := by rw [hd]; rfl
    have hdI : (d = 'I') = False := eq_false (digit_ne_char hddig 'I' (by decide))
    rw [show encodeJson (.num n) = intChars n from rfl, hc2] at hskip
    simp only [List.cons_append] at hskip
    rw [hc2, List.cons_append] at hrn
    simp only [parseP, hskip]
    simp [hhead, hdI, show ('-' = lbrace) = False by decide, hrn]
  · have hc2 : intChars n = natChars n.toNat := by simp [intChars, not_lt.2 hn]
    obtain ⟨d, ds, hd⟩ := List.exists_cons_of_ne_nil (natChars_ne_nil n.toNat)
    have halld := natChars_all_digits n.toNat
    rw [hd] at halld
    simp only [List.all_cons, Bool.and_eq_true] at halld
    have hddig := halld.1
    rw [show encodeJson (.num n) = intChars n from rfl, hc2, hd] at hskip
    simp only [List.cons_append] at hskip
    rw [hc2, hd, List.cons_append] at hrn
    simp only [parseP, hskip]
    simp [eq_false (digit_ne_char hddig '"' (by decide)),
      eq_false (digit_ne_char hddig '[' (by decide)),
      eq_false (digit_ne_char hddig lbrace (by decide)),
      eq_false (digit_ne_char hddig 't' (by decide)),
      eq_false (digit_ne_char hddig 'f' (by decide)),
      eq_false (digit_ne_char hddig 'n' (by decide)),
      eq_false (digit_ne_char hddig 'N' (by decide)),
      eq_false (digit_ne_char hddig 'I' (by decide)),
      eq_false (digit_ne_char hddig '-' (by decide)),
      hddig, hrn]

theorem parseP_arr_nil (f : Nat) (l rest : List Char)
    (hskip : skipWs l = encodeJson (.arr []) ++ rest) :
    parseP (f + 1) .val l = some (.arr [], rest) := by
  simp only [encodeJson, List.cons_append, List.nil_append] at hskip
  simp only [parseP, hskip]
  simp [skipWs_cons_not (show isJsonWs ']' = false by decide) rest,
    show ('[' = lbrace) = False by decide]

theorem parseP_obj_nil (f : Nat) (l rest : List Char)
    (hskip : skipWs l = encodeJson (.obj []) ++ rest) :
    parseP (f + 1) .val l = some (.obj [], rest) := by
  simp only [encodeJson, List.cons_append, List.nil_append] at hskip
  simp only [parseP, hskip]
  simp [skipWs_cons_not (show isJsonWs rbrace = false by decide) rest,
    show (lbrace = '"') = False by decide,
    show (lbrace = '[') = False by decide,
    show (lbrace = lbrace) = True by simp,
    show (rbrace = rbrace) = True by simp]

theorem numDelim_items (xs : List Json) (rest : List Char) :
    numDelim (encodeItems xs ++ ']' :: rest) = true := by
  cases xs <;> simp [encodeItems, numDelim]

theorem numDelim_fields (fs : List (String × Json)) (rest : List Char) :
    numDelim (encodeFields fs ++ rbrace :: rest) = true := by
  cases fs
  · simp [encodeFields, numDelim]
    refine ⟨⟨⟨by decide, by decide⟩, by decide⟩, by decide⟩
  · simp [encodeFields, numDelim]

theorem parseP_spec : ∀ f : Nat,
    (∀ j l rest, wfJson j = true → numDelim rest = true → (encodeJson j).length ≤ f →
      skipWs l = encodeJson j ++ rest → parseP f .val l = some (j, rest)) ∧
    (∀ x xs l rest, wfJson x = true → wfList xs = true →
      (encodeJson x).length + (encodeItems xs).length + 1 ≤ f →
      skipWs l = encodeJson x ++ (encodeItems xs ++ ']' :: rest) →
      parseP f .items l = some (.arr (x :: xs), rest)) ∧
    (∀ (k : String) v fs l rest, k.data.all wfChar = true → wfJson v = true →
      wfFields fs = true →
      (encodeField (k, v)).length + (encodeFields fs).length + 1 ≤ f →
      skipWs l = encodeField (k, v) ++ (encodeFields fs ++ rbrace :: rest) →
      parseP f .fields l = some (.obj ((k, v) :: fs), rest)) := by
  intro f
  induction f with
  | zero =>
    refine ⟨?_, ?_, ?_⟩
    · intro j l rest hwf _ hlen _
      exact absurd (List.length_eq_zero.mp (Nat.le_zero.mp hlen)) (encodeJson_ne_nil j hwf)
    · intro x xs l rest _ _ hlen _
      omega
    · intro k v fs l rest _ _ _ hlen _
      omega
  | succ f ih =>
    obtain ⟨ih1, ih2, ih3⟩ := ih
    refine ⟨?_, ?_, ?_⟩
    · -- one value
      intro j l rest hwf hnd hlen hskip
      cases j with
      | null => exact parseP_null f l rest hskip
      | bool b => exact parseP_bool f b l rest hskip
      | num n => exact parseP_num f n l rest hnd hskip
      | fnum s => simp [wfJson] at hwf
      | str s =>
        have h : s.data.all wfChar = true := by simpa [wfJson] using hwf
        exact parseP_str f s l rest h hskip
      | arr xs =>
        cases xs with
        | nil => exact parseP_arr_nil f l rest hskip
        | cons x xs =>
          have hw : wfJson x = true ∧ wfList xs = true := by
            simpa [wfJson, wfList] using hwf
          have henc : encodeJson (.arr (x :: xs)) =
              '[' :: ((encodeJson x ++ encodeItems xs) ++ [']']) := by
            simp [encodeJson]
          rw [henc] at hskip hlen
          simp only [List.cons_append, List.append_assoc, List.singleton_append] at hskip
          simp only [List.length_cons, List.length_append, List.length_singleton] at hlen
          obtain ⟨c0, cs0, hc0, hcw, hcne⟩ := encodeJson_head x hw.1
          have hitems := ih2 x xs (encodeJson x ++ (encodeItems xs ++ ']' :: rest)) rest
            hw.1 hw.2 (by omega) (skipWs_enc x hw.1 _)
          rw [hc0] at hitems
          simp only [List.cons_append] at hitems
          simp only [parseP, hskip]
          simp [hc0, List.cons_append, skipWs_cons_not hcw, eq_false hcne, hitems,
            show ('[' = lbrace) = False by decide]
      | obj fs =>
        cases fs with
        | nil => exact parseP_obj_nil f l rest hskip
        | cons kv fs =>
          obtain ⟨k, v⟩ := kv
          have hw : k.data.all wfChar = true ∧ wfJson v = true ∧ wfFields fs = true := by
            simpa [wfJson, wfFields, and_assoc] using hwf
          have henc : encodeJson (.obj ((k, v) :: fs)) =
              lbrace :: ((encodeField (k, v) ++ encodeFields fs) ++ [rbrace]) := by
            simp [encodeJson]
          rw [henc] at hskip hlen
          simp only [List.cons_append, List.append_assoc, List.singleton_append] at hskip
          simp only [List.length_cons, List.length_append, List.length_singleton] at hlen
          have hfield : encodeField (k, v) =
              '"' :: (encStrChars k.data ++ ['"', ':', ' '] ++ encodeJson v) := by
            simp [encodeField]
          have hsk : skipWs (encodeField (k, v) ++ (encodeFields fs ++ rbrace :: rest)) =
              encodeField (k, v) ++ (encodeFields fs ++ rbrace :: rest) := by
            rw [hfield, List.cons_append]
            exact skipWs_cons_not (by decide) _
          have hfields := ih3 k v fs (encodeField (k, v) ++ (encodeFields fs ++ rbrace :: rest))
            rest hw.1 hw.2.1 hw.2.2 (by omega) hsk
          rw [hfield] at hfields hskip
          simp only [List.cons_append, List.append_assoc, List.singleton_append,
            List.nil_append] at hfields hskip
          simp only [parseP, hskip]
          simp [skipWs_cons_not (show isJsonWs '"' = false by decide), hfields,
            show (lbrace = '"') = False by decide,
            show (lbrace = '[') = False by decide,
            show (lbrace = lbrace) = True by simp,
            show ('"' = rbrace) = False by decide]
    · -- array items
      intro x xs l rest hwx hwxs hlen hskip
      have hxpos := List.length_pos.2 (encodeJson_ne_nil x hwx)
      have h1 := ih1 x l (encodeItems xs ++ ']' :: rest) hwx (numDelim_items xs rest)
        (by omega) hskip
      simp only [parseP]
      rw [h1]
      cases xs with
      | nil =>
        simp only [encodeItems, List.nil_append]
        rw [skipWs_cons_not (by decide)]
        simp
      | cons y ys =>
        have hwy : wfJson y = true ∧ wfList ys = true := by
          simpa [wfList] using hwxs
        simp only [encodeItems, List.length_cons, List.length_append] at hlen
        have hsk : skipWs (' ' :: (encodeJson y ++ (encodeItems ys ++ ']' :: rest))) =
            encodeJson y ++ (encodeItems ys ++ ']' :: rest) := by
          rw [skipWs_space]
          exact skipWs_enc y hwy.1 _
        have h2 := ih2 y ys (' ' :: (encodeJson y ++ (encodeItems ys ++ ']' :: rest))) rest
          hwy.1 hwy.2 (by omega) hsk
        simp only [encodeItems, List.cons_append, List.append_assoc]
        rw [skipWs_cons_not (by decide)]
        simp [h2]
    · -- object fields
      intro k v fs l rest hwk hwv hwfs hlen hskip
      have hfield : encodeField (k, v) =
          '"' :: (encStrChars k.data ++ ['"', ':', ' '] ++ encodeJson v) := by
        simp [encodeField]
      rw [hfield] at hskip hlen
      simp only [List.cons_append, List.append_assoc, List.singleton_append,
        List.length_cons, List.length_append] at hskip hlen
      have hskv : skipWs (' ' :: (encodeJson v ++ (encodeFields fs ++ rbrace :: rest))) =
          encodeJson v ++ (encodeFields fs ++ rbrace :: rest) := by
        rw [skipWs_space]
        exact skipWs_enc v hwv _
      have hv := ih1 v (' ' :: (encodeJson v ++ (encodeFields fs ++ rbrace :: rest)))
        (encodeFields fs ++ rbrace :: rest) hwv (numDelim_fields fs rest) (by omega) hskv
      have hread : readStrChars (encStrChars k.data ++
          ('"' :: (':' :: ' ' :: (encodeJson v ++ (encodeFields fs ++ rbrace :: rest))))) =
          some (k.data, ':' :: ' ' :: (encodeJson v ++ (encodeFields fs ++ rbrace :: rest))) :=
        readStr_enc k.data hwk _
      simp only [parseP, hskip]
      cases fs with
      | nil =>
        simp only [encodeFields, List.nil_append] at hv hread ⊢
        simp [hread, skipWs_cons_not (show isJsonWs ':' = false by decide), hv,
          skipWs_cons_not (show isJsonWs rbrace = false by decide),
          show (rbrace = rbrace) = True by simp]
        rw [show rbrace = '\x7d' from rfl]
        simp
      | cons kv2 fs2 =>
        obtain ⟨k2, v2⟩ := kv2
        have hw2 : k2.data.all wfChar = true ∧ wfJson v2 = true ∧ wfFields fs2 = true := by
          simpa [wfFields, and_assoc] using hwfs
        simp only [encodeFields, List.length_cons, List.length_append] at hlen
        have hfield2 : encodeField (k2, v2) =
            '"' :: (encStrChars k2.data ++ ['"', ':', ' '] ++ encodeJson v2) := by
          simp [encodeField]
        have hsk2 : skipWs (' ' :: (encodeField (k2, v2) ++ (encodeFields fs2 ++ rbrace :: rest))) =
            encodeField (k2, v2) ++ (encodeFields fs2 ++ rbrace :: rest) := by
          rw [skipWs_space, hfield2, List.cons_append]
          exact skipWs_cons_not (by decide) _
        have h3 := ih3 k2 v2 fs2
          (' ' :: (encodeField (k2, v2) ++ (encodeFields fs2 ++ rbrace :: rest))) rest
          hw2.1 hw2.2.1 hw2.2.2 (by omega) hsk2
        simp only [encodeFields, List.cons_append, List.append_assoc] at hv hread ⊢
        simp [hread, skipWs_cons_not (show isJsonWs ':' = false by decide), hv,
          skipWs_cons_not (show isJsonWs ',' = false by decide), h3]

/-- Round-trip of the modelled codec: parsing the encoded line of any
well-formed JSON value returns that value exactly. -/
theorem parseJson_encode (j : Json) (hwf : wfJson j = true) :
    parseJson (jsonToLine j) = some j := by
  have hskip : skipWs (encodeJson j) = encodeJson j ++ [] := by
    rw [List.append_nil]
    have := skipWs_enc j hwf []
    rwa [List.append_nil] at this
  have h := (parseP_spec ((encodeJson j).length + 1)).1 j (encodeJson j) [] hwf rfl
    (by omega) hskip
  show (match parseP ((jsonToLine j).data.length + 1) .val (jsonToLine j).data with
    | some (v, rest) => if skipWs rest = [] then some v else none
    | none => none) = some j
  have hdata : (jsonToLine j).data = encodeJson j := rfl
  rw [hdata, h]
  rfl

/-! ## Helper lemmas about the Python-semantics embedding -/

theorem beq_unfold (a b : Json) : (a == b) = Json.beq a b := rfl

theorem isObj_iff (j : Json) : j.isObj = true ↔ ∃ fs, j = .obj fs := by
  cases j <;> simp [Json.isObj]

theorem pyDictGet_not_obj (j : Json) (k : String) (h : j.isObj = false) :
    pyDictGet j k = .error ("\x27" ++ pyTypeName j ++ "\x27 object has no attribute \x27get\x27") := by
  cases j <;> simp_all [Json.isObj, pyDictGet]

/-! ## Claim C4 -/

/-- C4: for every representable envelope variant (request, notification,
success response, error response), decoding the encoded line yields the
original envelope: decode (encode envelope) = envelope.  Representable means
envelope-shaped with exact integers and printable-ASCII strings; the codec is
modelled from the spec, since json.loads and json.dumps belong to the Python
standard library, not to this repository. -/
theorem C4_codec_roundtrip (e : Json) (h : representableEnvelope e = true) :
    parseJson (jsonToLine e) = some e := by
  have hwf : wfJson e = true := by
    simp only [representableEnvelope, Bool.and_eq_true] at h
    exact h.2
  exact parseJson_encode e hwf

/-- Witness for C4 at one concrete envelope of each of the four variants. -/
theorem C4_codec_roundtrip_witness :
    (representableEnvelope sampleRequest = true ∧
      parseJson (jsonToLine sampleRequest) = some sampleRequest) ∧
    (representableEnvelope sampleNotification = true ∧
      parseJson (jsonToLine sampleNotification) = some sampleNotification) ∧
    (representableEnvelope sampleSuccess = true ∧
      parseJson (jsonToLine sampleSuccess) = some sampleSuccess) ∧
    (representableEnvelope sampleError = true ∧
      parseJson (jsonToLine sampleError) = some sampleError) :=
  ⟨⟨by rfl, C4_codec_roundtrip sampleRequest (by rfl)⟩,
   ⟨by rfl, C4_codec_roundtrip sampleNotification (by rfl)⟩,
   ⟨by rfl, C4_codec_roundtrip sampleSuccess (by rfl)⟩,
   ⟨by rfl, C4_codec_roundtrip sampleError (by rfl)⟩⟩

/-! ## Claim C3 -/

theorem mockHandle_unknown (env : MockEnv) (s : MockState) (req : Json) (m : String)
    (hobj : req.isObj = true) (hm : jget req "method" = .str m)
    (hnot : m ∉ (["initialize", "initialized", "tools/list", "tools/call"] : List String)) :
    mockHandle env s req =
      (s, .ok (some (errorResponse (jget req "id") (-32601) ("Method not found: " ++ m)))) := by
  obtain ⟨fs, rfl⟩ := (isObj_iff req).mp hobj
  simp only [List.mem_cons, List.not_mem_nil, or_false, not_or] at hnot
  obtain ⟨n1, n2, n3, n4⟩ := hnot
  have hm' : (jlookup fs "method").getD .null = .str m := hm
  have b1 : (Json.str m == Json.str "initialize") = false :=
    Bool.eq_false_iff.mpr (fun h => n1 (by simpa using (Json.beq_iff _ _).mp h))
  have b2 : (Json.str m == Json.str "initialized") = false :=
    Bool.eq_false_iff.mpr (fun h => n2 (by simpa using (Json.beq_iff _ _).mp h))
  have b3 : (Json.str m == Json.str "tools/list") = false :=
    Bool.eq_false_iff.mpr (fun h => n3 (by simpa using (Json.beq_iff _ _).mp h))
  have b4 : (Json.str m == Json.str "tools/call") = false :=
    Bool.eq_false_iff.mpr (fun h => n4 (by simpa using (Json.beq_iff _ _).mp h))
  simp only [mockHandle, pyDictGet, pyDictGetD, hm', b1, b2, b3, b4]
  simp [pyFStr, jget]

theorem httpHandle_unknown (env : HttpEnv) (s : HttpState) (req : Json) (m : String)
    (hobj : req.isObj = true) (hm : jget req "method" = .str m)
    (hnot : m ∉ (["initialize", "initialized", "tools/list", "tools/call"] : List String)) :
    httpHandle env s req =
      (s, .ok (some (errorResponse (jget req "id") (-32601) ("Method not found: " ++ m)))) := by
  obtain ⟨fs, rfl⟩ := (isObj_iff req).mp hobj
  simp only [List.mem_cons, List.not_mem_nil, or_false, not_or] at hnot
  obtain ⟨n1, n2, n3, n4⟩ := hnot
  have hm' : (jlookup fs "method").getD .null = .str m := hm
  have b1 : (Json.str m == Json.str "initialize") = false :=
    Bool.eq_false_iff.mpr (fun h => n1 (by simpa using (Json.beq_iff _ _).mp h))
  have b2 : (Json.str m == Json.str "initialized") = false :=
    Bool.eq_false_iff.mpr (fun h => n2 (by simpa using (Json.beq_iff _ _).mp h))
  have b3 : (Json.str m == Json.str "tools/list") = false :=
    Bool.eq_false_iff.mpr (fun h => n3 (by simpa using (Json.beq_iff _ _).mp h))
  have b4 : (Json.str m == Json.str "tools/call") = false :=
    Bool.eq_false_iff.mpr (fun h => n4 (by simpa using (Json.beq_iff _ _).mp h))
  simp only [httpHandle, pyDictGet, pyDictGetD, hm', b1, b2, b3, b4]
  simp [pyFStr, jget]

/-- C3: for every well-formed request envelope whose method is none of the
known operations, both hosts respond with exactly one error envelope of code
-32601 carrying the request's id, whose message names the offending method,
and the connection state is unchanged. -/
theorem C3_unknown_method (envM : MockEnv) (envH : HttpEnv) (sM : MockState) (sH : HttpState)
    (line : String) (req : Json) (m : String)
    (hdec : parseJson line = some req) (hobj : req.isObj = true)
    (hm : jget req "method" = .str m)
    (hnot : m ∉ (["initialize", "initialized", "tools/list", "tools/call"] : List String)) :
    mockStepLine envM sM line =
      (sM, some (jsonToLine (errorResponse (jget req "id") (-32601)
        ("Method not found: " ++ m)))) ∧
    httpStepLine envH sH line =
      (sH, some (jsonToLine (errorResponse (jget req "id") (-32601)
        ("Method not found: " ++ m)))) := by
  constructor
  · simp only [mockStepLine, hdec, mockHandle_unknown envM sM req m hobj hm hnot]
  · simp only [httpStepLine, hdec, httpHandle_unknown envH sH req m hobj hm hnot]

set_option maxHeartbeats 1000000 in
/-- Witness for C3 at the concrete unknown method "foo/bar" with id 3. -/
theorem C3_unknown_method_witness :
    mockStepLine envM mockStart
        (jsonToLine (.obj [("jsonrpc", .str "2.0"), ("id", .num 3), ("method", .str "foo/bar")])) =
      (mockStart, some (jsonToLine (errorResponse (jget
        (.obj [("jsonrpc", .str "2.0"), ("id", .num 3), ("method", .str "foo/bar")]) "id")
        (-32601) ("Method not found: " ++ "foo/bar")))) ∧
    httpStepLine envH httpStart
        (jsonToLine (.obj [("jsonrpc", .str "2.0"), ("id", .num 3), ("method", .str "foo/bar")])) =
      (httpStart, some (jsonToLine (errorResponse (jget
        (.obj [("jsonrpc", .str "2.0"), ("id", .num 3), ("method", .str "foo/bar")]) "id")
        (-32601) ("Method not found: " ++ "foo/bar")))) :=
  C3_unknown_method envM envH mockStart httpStart
    (jsonToLine (.obj [("jsonrpc", .str "2.0"), ("id", .num 3), ("method", .str "foo/bar")]))
    (.obj [("jsonrpc", .str "2.0"), ("id", .num 3), ("method", .str "foo/bar")])
    "foo/bar" (by rfl) (by rfl) (by rfl) (by decide)

/-! ## Claim C8 -/

theorem mockHandle_tools_list (env : MockEnv) (s : MockState) (fs : List (String × Json))
    (hm : (jlookup fs "method").getD .null = .str "tools/list") :
    mockHandle env s (.obj fs) =
      (s, .ok (some (successResponse ((jlookup fs "id").getD .null)
        (.obj [("tools", s.tools)])))) := by
  simp only [mockHandle, pyDictGet, pyDictGetD, hm]
  simp [show (Json.str "tools/list" == Json.str "initialize") = false by decide,
    show (Json.str "tools/list" == Json.str "initialized") = false by decide,
    show (Json.str "tools/list" == Json.str "tools/list") = true by decide]

theorem httpHandle_tools_list (env : HttpEnv) (s : HttpState) (fs : List (String × Json))
    (hm : (jlookup fs "method").getD .null = .str "tools/list") :
    httpHandle env s (.obj fs) =
      (s, .ok (some (successResponse ((jlookup fs "id").getD .null)
        (.obj [("tools", s.tools)])))) := by
  simp only [httpHandle, pyDictGet, pyDictGetD, hm]
  simp [show (Json.str "tools/list" == Json.str "initialize") = false by decide,
    show (Json.str "tools/list" == Json.str "initialized") = false by decide,
    show (Json.str "tools/list" == Json.str "tools/list") = true by decide]

theorem mockHandle_tools_const (env : MockEnv) (s : MockState) (req : Json) :
    ((mockHandle env s req).1).tools = s.tools := by
  unfold mockHandle
  (repeat' split) <;> rfl

theorem httpHandle_tools_const (env : HttpEnv) (s : HttpState) (req : Json) :
    ((httpHandle env s req).1).tools = s.tools := by
  unfold httpHandle
  (repeat' split) <;> rfl

theorem mockStepLine_tools_const (env : MockEnv) (s : MockState) (line : String) :
    ((mockStepLine env s line).1).tools = s.tools := by
  unfold mockStepLine
  split
  · rfl
  · rename_i req heq
    split <;> rename_i hhandle
    all_goals
      have h := mockHandle_tools_const env s req
      rw [hhandle] at h
      exact h

theorem httpStepLine_tools_const (env : HttpEnv) (s : HttpState) (line : String) :
    ((httpStepLine env s line).1).tools = s.tools := by
  unfold httpStepLine
  split
  · rfl
  · rename_i req heq
    split <;> rename_i hhandle
    all_goals
      have h := httpHandle_tools_const env s req
      rw [hhandle] at h
      exact h

theorem mockReachable_tools (s : MockState) (h : MockReachable s) : s.tools = mockToolsDef := by
  induction h with
  | start => rfl
  | step env s line _ ih => rw [mockStepLine_tools_const, ih]

theorem httpReachable_tools (s : HttpState) (h : HttpReachable s) : s.tools = httpToolsDef := by
  induction h with
  | start => rfl
  | step env s line _ ih => rw [httpStepLine_tools_const, ih]

/-- C8: every catalog-list request, in every connection state, yields a
success response whose result.tools is the instance's descriptor list, and
handling the request leaves the state untouched (hence repeated calls return
the same value); in every reachable state that descriptor list is the one
fixed at construction, in registration order. -/
theorem C8_tools_list :
    (∀ (env : MockEnv) (s : MockState) (line : String) (req : Json),
      parseJson line = some req → req.isObj = true →
      jget req "method" = .str "tools/list" →
      mockStepLine env s line =
        (s, some (jsonToLine (successResponse (jget req "id")
          (.obj [("tools", s.tools)]))))) ∧
    (∀ s, MockReachable s → s.tools = mockToolsDef) ∧
    (∀ (env : HttpEnv) (s : HttpState) (line : String) (req : Json),
      parseJson line = some req → req.isObj = true →
      jget req "method" = .str "tools/list" →
      httpStepLine env s line =
        (s, some (jsonToLine (successResponse (jget req "id")
          (.obj [("tools", s.tools)]))))) ∧
    (∀ s, HttpReachable s → s.tools = httpToolsDef) := by
  refine ⟨?_, mockReachable_tools, ?_, httpReachable_tools⟩
  · intro env s line req hdec hobj hm
    obtain ⟨fs, rfl⟩ := (isObj_iff req).mp hobj
    simp only [mockStepLine, hdec, mockHandle_tools_list env s fs hm]
    rfl
  · intro env s line req hdec hobj hm
    obtain ⟨fs, rfl⟩ := (isObj_iff req).mp hobj
    simp only [httpStepLine, hdec, httpHandle_tools_list env s fs hm]
    rfl

set_option maxHeartbeats 1000000 in
/-- Witness for C8: a concrete tools/list request against each freshly
constructed host, and the construction states themselves. -/
theorem C8_tools_list_witness :
    mockStepLine envM mockStart (jsonToLine sampleRequest) =
      (mockStart, some (jsonToLine (successResponse (jget sampleRequest "id")
        (.obj [("tools", mockStart.tools)])))) ∧
    mockStart.tools = mockToolsDef ∧
    httpStepLine envH httpStart (jsonToLine sampleRequest) =
      (httpStart, some (jsonToLine (successResponse (jget sampleRequest "id")
        (.obj [("tools", httpStart.tools)])))) ∧
    httpStart.tools = httpToolsDef :=
  ⟨C8_tools_list.1 envM mockStart (jsonToLine sampleRequest) sampleRequest
      (by rfl) (by rfl) (by rfl),
   C8_tools_list.2.1 mockStart MockReachable.start,
   C8_tools_list.2.2.1 envH httpStart (jsonToLine sampleRequest) sampleRequest
      (by rfl) (by rfl) (by rfl),
   C8_tools_list.2.2.2 httpStart HttpReachable.start⟩

/-! ## Claim C10 -/

theorem mockHandle_init_notification (env : MockEnv) (s : MockState) (req : Json)
    (hobj : req.isObj = true) (hm : jget req "method" = .str "initialized") :
    mockHandle env s req = ({ s with initialized := true }, .ok none) := by
  obtain ⟨fs, rfl⟩ := (isObj_iff req).mp hobj
  have hm' : (jlookup fs "method").getD .null = .str "initialized" := hm
  simp only [mockHandle, pyDictGet, pyDictGetD, hm']
  simp [show (Json.str "initialized" == Json.str "initialize") = false by decide,
    show (Json.str "initialized" == Json.str "initialized") = true by decide]

theorem mockHandle_init_mono (env : MockEnv) (s : MockState) (req : Json)
    (h : s.initialized = true) : ((mockHandle env s req).1).initialized = true := by
  unfold mockHandle
  (repeat' split) <;> first | rfl | exact h

theorem mockHandle_init_only (env : MockEnv) (s : MockState) (req : Json)
    (h : ((mockHandle env s req).1).initialized = true) :
    s.initialized = true ∨ jget req "method" = .str "initialized" := by
  cases req with
  | obj fs =>
    by_cases hb : ((jlookup fs "method").getD .null == Json.str "initialized") = true
    · exact Or.inr ((Json.beq_iff _ _).mp hb)
    · left
      have hb' : ((jlookup fs "method").getD .null == Json.str "initialized") = false :=
        Bool.eq_false_iff.mpr hb
      simp only [mockHandle, pyDictGet, pyDictGetD, hb', Bool.false_eq_true, if_false] at h
      revert h
      (repeat' split) <;> intro h <;> exact h
  | null =>
    left
    simpa [mockHandle, pyDictGet] using h
  | bool b =>
    left
    simpa [mockHandle, pyDictGet] using h
  | num n =>
    left
    simpa [mockHandle, pyDictGet] using h
  | fnum s2 =>
    left
    simpa [mockHandle, pyDictGet] using h
  | str s2 =>
    left
    simpa [mockHandle, pyDictGet] using h
  | arr xs =>
    left
    simpa [mockHandle, pyDictGet] using h

/-- C10: the mock host's initialized flag is false at construction, becomes
true exactly upon the handshake-complete notification (which draws no
response), is never reset by any operation, and becomes true through no other
method — so the transition happens at most once and repeats are idempotent. -/
theorem C10_initialized_flag :
    mockStart.initialized = false ∧
    (∀ (env : MockEnv) (s : MockState) (req : Json), req.isObj = true →
      jget req "method" = .str "initialized" →
      mockHandle env s req = ({ s with initialized := true }, .ok none)) ∧
    (∀ (env : MockEnv) (s : MockState) (req : Json), s.initialized = true →
      ((mockHandle env s req).1).initialized = true) ∧
    (∀ (env : MockEnv) (s : MockState) (req : Json),
      ((mockHandle env s req).1).initialized = true →
      s.initialized = true ∨ jget req "method" = .str "initialized") :=
  ⟨rfl, mockHandle_init_notification, mockHandle_init_mono, mockHandle_init_only⟩

/-- Witness for C10 at the concrete handshake-complete notification. -/
theorem C10_initialized_flag_witness :
    mockStart.initialized = false ∧
    mockHandle envM mockStart sampleNotification =
      ({ mockStart with initialized := true }, .ok none) ∧
    ((mockHandle envM { initialized := true, tools := mockToolsDef } sampleNotification).1).initialized
      = true ∧
    (mockStart.initialized = true ∨ jget sampleNotification "method" = .str "initialized") :=
  ⟨C10_initialized_flag.1,
   C10_initialized_flag.2.1 envM mockStart sampleNotification (by rfl) (by rfl),
   C10_initialized_flag.2.2.1 envM { initialized := true, tools := mockToolsDef }
     sampleNotification (by rfl),
   C10_initialized_flag.2.2.2 envM mockStart sampleNotification (by rfl)⟩

/-! ## Claim C9 -/

theorem mockHandle_tool_call (env : MockEnv) (s : MockState) (fs : List (String × Json))
    (hm : (jlookup fs "method").getD .null = .str "tools/call") :
    mockHandle env s (.obj fs) =
      (s, mockToolCall env ((jlookup fs "id").getD .null)
        ((jlookup fs "params").getD (.obj []))) := by
  simp only [mockHandle, pyDictGet, pyDictGetD, hm]
  simp [show (Json.str "tools/call" == Json.str "initialize") = false by decide,
    show (Json.str "tools/call" == Json.str "initialized") = false by decide,
    show (Json.str "tools/call" == Json.str "tools/list") = false by decide,
    show (Json.str "tools/call" == Json.str "tools/call") = true by decide]

theorem httpHandle_tool_call (env : HttpEnv) (s : HttpState) (fs : List (String × Json))
    (hm : (jlookup fs "method").getD .null = .str "tools/call") :
    httpHandle env s (.obj fs) =
      (s, httpToolCall env ((jlookup fs "id").getD .null)
        ((jlookup fs "params").getD (.obj []))) := by
  simp only [httpHandle, pyDictGet, pyDictGetD, hm]
  simp [show (Json.str "tools/call" == Json.str "initialize") = false by decide,
    show (Json.str "tools/call" == Json.str "initialized") = false by decide,
    show (Json.str "tools/call" == Json.str "tools/list") = false by decide,
    show (Json.str "tools/call" == Json.str "tools/call") = true by decide]

theorem mockToolCall_unknown (env : MockEnv) (rid params name : Json)
    (hp : params.isObj = true) (hname : jget params "name" = name)
    (h1 : name ≠ .str "echo") (h2 : name ≠ .str "add") (h3 : name ≠ .str "get_time") :
    mockToolCall env rid params =
      .ok (some (errorResponse rid (-32602) ("Unknown tool: " ++ pyFStr name))) := by
  obtain ⟨fs, rfl⟩ := (isObj_iff params).mp hp
  have hname' : (jlookup fs "name").getD .null = name := hname
  have b1 : (name == Json.str "echo") = false :=
    Bool.eq_false_iff.mpr (fun h => h1 ((Json.beq_iff _ _).mp h))
  have b2 : (name == Json.str "add") = false :=
    Bool.eq_false_iff.mpr (fun h => h2 ((Json.beq_iff _ _).mp h))
  have b3 : (name == Json.str "get_time") = false :=
    Bool.eq_false_iff.mpr (fun h => h3 ((Json.beq_iff _ _).mp h))
  simp only [mockToolCall, pyDictGet, pyDictGetD, hname', b1, b2, b3]
  simp

theorem httpToolCall_unknown (env : HttpEnv) (rid params name : Json)
    (hp : params.isObj = true) (hname : jget params "name" = name)
    (h1 : name ≠ .str "fetch_url") (h2 : name ≠ .str "check_weather")
    (h3 : name ≠ .str "get_time") (h4 : name ≠ .str "calculate") :
    httpToolCall env rid params =
      .ok (some (errorResponse rid (-32602) ("Unknown tool: " ++ pyFStr name))) := by
  obtain ⟨fs, rfl⟩ := (isObj_iff params).mp hp
  have hname' : (jlookup fs "name").getD .null = name := hname
  have b1 : (name == Json.str "fetch_url") = false :=
    Bool.eq_false_iff.mpr (fun h => h1 ((Json.beq_iff _ _).mp h))
  have b2 : (name == Json.str "check_weather") = false :=
    Bool.eq_false_iff.mpr (fun h => h2 ((Json.beq_iff _ _).mp h))
  have b3 : (name == Json.str "get_time") = false :=
    Bool.eq_false_iff.mpr (fun h => h3 ((Json.beq_iff _ _).mp h))
  have b4 : (name == Json.str "calculate") = false :=
    Bool.eq_false_iff.mpr (fun h => h4 ((Json.beq_iff _ _).mp h))
  simp only [httpToolCall, pyDictGet, pyDictGetD, hname', b1, b2, b3, b4]
  simp

/-- C9: a tool-invocation request whose params.name is not a registered tool
name — including an absent name, looked up as None — receives an error
envelope with code -32602, the request's id, and a message naming the
offending tool (through Python's string rendering of the name value). -/
theorem C9_unknown_tool :
    (∀ (env : MockEnv) (s : MockState) (line : String) (req params name : Json),
      parseJson line = some req → req.isObj = true →
      jget req "method" = .str "tools/call" →
      pyDictGetD req "params" (.obj []) = .ok params → params.isObj = true →
      jget params "name" = name →
      name ≠ .str "echo" → name ≠ .str "add" → name ≠ .str "get_time" →
      mockStepLine env s line =
        (s, some (jsonToLine (errorResponse (jget req "id") (-32602)
          ("Unknown tool: " ++ pyFStr name))))) ∧
    (∀ (env : HttpEnv) (s : HttpState) (line : String) (req params name : Json),
      parseJson line = some req → req.isObj = true →
      jget req "method" = .str "tools/call" →
      pyDictGetD req "params" (.obj []) = .ok params → params.isObj = true →
      jget params "name" = name →
      name ≠ .str "fetch_url" → name ≠ .str "check_weather" → name ≠ .str "get_time" →
      name ≠ .str "calculate" →
      httpStepLine env s line =
        (s, some (jsonToLine (errorResponse (jget req "id") (-32602)
          ("Unknown tool: " ++ pyFStr name))))) := by
  constructor
  · intro env s line req params name hdec hobj hm hparams hpobj hname h1 h2 h3
    obtain ⟨fs, rfl⟩ := (isObj_iff req).mp hobj
    have hparams' : (jlookup fs "params").getD (.obj []) = params := by
      simpa [pyDictGetD] using hparams
    simp only [mockStepLine, hdec, mockHandle_tool_call env s fs hm, hparams',
      mockToolCall_unknown env _ params name hpobj hname h1 h2 h3]
    rfl
  · intro env s line req params name hdec hobj hm hparams hpobj hname h1 h2 h3 h4
    obtain ⟨fs, rfl⟩ := (isObj_iff req).mp hobj
    have hparams' : (jlookup fs "params").getD (.obj []) = params := by
      simpa [pyDictGetD] using hparams
    simp only [httpStepLine, hdec, httpHandle_tool_call env s fs hm, hparams',
      httpToolCall_unknown env _ params name hpobj hname h1 h2 h3 h4]
    rfl

set_option maxHeartbeats 1000000 in
/-- Witness for C9: the mock host with the unregistered name "nope" and the
http host with the name parameter absent (rendered None). -/
theorem C9_unknown_tool_witness :
    mockStepLine envM mockStart
        (jsonToLine (.obj [("jsonrpc", .str "2.0"), ("id", .num 4),
          ("method", .str "tools/call"),
          ("params", .obj [("name", .str "nope"), ("arguments", .obj [])])])) =
      (mockStart, some (jsonToLine (errorResponse (.num 4) (-32602)
        ("Unknown tool: " ++ pyFStr (.str "nope"))))) ∧
    httpStepLine envH httpStart
        (jsonToLine (.obj [("jsonrpc", .str "2.0"), ("id", .num 4),
          ("method", .str "tools/call"), ("params", .obj [])])) =
      (httpStart, some (jsonToLine (errorResponse (.num 4) (-32602)
        ("Unknown tool: " ++ pyFStr .null)))) :=
  ⟨C9_unknown_tool.1 envM mockStart
      (jsonToLine (.obj [("jsonrpc", .str "2.0"), ("id", .num 4),
        ("method", .str "tools/call"),
        ("params", .obj [("name", .str "nope"), ("arguments", .obj [])])]))
      (.obj [("jsonrpc", .str "2.0"), ("id", .num 4), ("method", .str "tools/call"),
        ("params", .obj [("name", .str "nope"), ("arguments", .obj [])])])
      (.obj [("name", .str "nope"), ("arguments", .obj [])]) (.str "nope")
      (by rfl) (by rfl) (by rfl) (by rfl) (by rfl) (by rfl)
      (by simp) (by simp) (by simp),
   C9_unknown_tool.2 envH httpStart
      (jsonToLine (.obj [("jsonrpc", .str "2.0"), ("id", .num 4),
        ("method", .str "tools/call"), ("params", .obj [])]))
      (.obj [("jsonrpc", .str "2.0"), ("id", .num 4), ("method", .str "tools/call"),
        ("params", .obj [])])
      (.obj []) .null
      (by rfl) (by rfl) (by rfl) (by rfl) (by rfl) (by rfl)
      (by simp) (by simp) (by simp) (by simp)⟩

/-! ## Claim C6 -/

/-- C6: when the relay cannot obtain a reply from the child — the child
process cannot be started, or the started child produces no reply line — it
outputs an error envelope with code -32603 whose id is the inbound request's
id (no line is forwarded in the spawn-failure case). -/
theorem C6_relay_internal_error :
    (∀ (env : RelayEnv) (st : RelayState) (line : String) (req : Json),
      parseJson line = some req → req.isObj = true →
      st.serverProc = false → env.spawnOk = false →
      relayHandleLine env st line =
        { state := st, sentToChild := none,
          output := jsonToLine (errorResponse (jget req "id") (-32603)
            "Failed to start MCP server") }) ∧
    (∀ (env : RelayEnv) (st : RelayState) (line : String) (req : Json),
      parseJson line = some req → req.isObj = true →
      (st.serverProc = true ∨ env.spawnOk = true) →
      (env.childReply line = none ∨ env.childReply line = some "") →
      relayHandleLine env st line =
        { state := { serverProc := true }, sentToChild := some (line ++ "\n"),
          output := jsonToLine (errorResponse (jget req "id") (-32603)
            "No response from server") }) := by
  constructor
  · intro env st line req hdec hobj hsp hspawn
    obtain ⟨fs, rfl⟩ := (isObj_iff req).mp hobj
    simp [relayHandleLine, hdec, pyDictGet, hsp, hspawn]
  · intro env st line req hdec hobj hrun hreply
    obtain ⟨fs, rfl⟩ := (isObj_iff req).mp hobj
    have hcond : ¬(st.serverProc = false ∧ env.spawnOk = false) := by
      rcases hrun with h | h <;> simp [h]
    rcases hreply with h | h <;>
      simp [relayHandleLine, hdec, pyDictGet, hcond, relaySend, h]

set_option maxHeartbeats 1000000 in
/-- Witness for C6: a spawn failure for the request with id 5, whose output
line is exactly the -32603 envelope of the spec's relay scenario, and a
started child that produces no reply for the request with id 6. -/
theorem C6_relay_internal_error_witness :
    relayHandleLine { spawnOk := false, childReply := fun _ => none } { serverProc := false }
        (jsonToLine (.obj [("jsonrpc", .str "2.0"), ("id", .num 5),
          ("method", .str "tools/list")])) =
      { state := { serverProc := false }, sentToChild := none,
        output := jsonToLine (errorResponse (jget (.obj [("jsonrpc", .str "2.0"),
          ("id", .num 5), ("method", .str "tools/list")]) "id") (-32603)
          "Failed to start MCP server") } ∧
    jsonToLine (errorResponse (.num 5) (-32603) "Failed to start MCP server") =
      "\x7b\"jsonrpc\": \"2.0\", \"id\": 5, \"error\": \x7b\"code\": -32603, \"message\": \"Failed to start MCP server\"\x7d\x7d" ∧
    relayHandleLine { spawnOk := true, childReply := fun _ => none } { serverProc := false }
        (jsonToLine (.obj [("jsonrpc", .str "2.0"), ("id", .num 6),
          ("method", .str "tools/list")])) =
      { state := { serverProc := true },
        sentToChild := some (jsonToLine (.obj [("jsonrpc", .str "2.0"), ("id", .num 6),
          ("method", .str "tools/list")]) ++ "\n"),
        output := jsonToLine (errorResponse (jget (.obj [("jsonrpc", .str "2.0"),
          ("id", .num 6), ("method", .str "tools/list")]) "id") (-32603)
          "No response from server") } :=
  ⟨C6_relay_internal_error.1 { spawnOk := false, childReply := fun _ => none }
      { serverProc := false }
      (jsonToLine (.obj [("jsonrpc", .str "2.0"), ("id", .num 5), ("method", .str "tools/list")]))
      (.obj [("jsonrpc", .str "2.0"), ("id", .num 5), ("method", .str "tools/list")])
      (by rfl) (by rfl) (by rfl) (by rfl),
   by rfl,
   C6_relay_internal_error.2 { spawnOk := true, childReply := fun _ => none }
      { serverProc := false }
      (jsonToLine (.obj [("jsonrpc", .str "2.0"), ("id", .num 6), ("method", .str "tools/list")]))
      (.obj [("jsonrpc", .str "2.0"), ("id", .num 6), ("method", .str "tools/list")])
      (by rfl) (by rfl) (Or.inr (by rfl)) (Or.inl (by rfl))⟩

/-! ## Claim C5 -/

theorem length_dropWhile_le (p : Char → Bool) (l : List Char) :
    (l.dropWhile p).length ≤ l.length := by
  induction l with
  | nil => simp
  | cons c cs ih =>
    rw [List.dropWhile_cons]
    by_cases hp : p c = true
    · rw [if_pos hp]
      simp only [List.length_cons]
      omega
    · rw [if_neg hp]

theorem dropWhile_length_eq {p : Char → Bool} {l : List Char}
    (h : (l.dropWhile p).length = l.length) : l.dropWhile p = l := by
  cases l with
  | nil => rfl
  | cons c cs =>
    rw [List.dropWhile_cons] at h ⊢
    by_cases hp : p c = true
    · rw [if_pos hp] at h
      have := length_dropWhile_le p cs
      simp at h
      omega
    · rw [if_neg hp]

theorem pyStrip_parts {r : String} (ht : pyStrip r = r) :
    r.data.dropWhile isPySpace = r.data ∧
    r.data.reverse.dropWhile isPySpace = r.data.reverse := by
  have hdata : ((r.data.dropWhile isPySpace).reverse.dropWhile isPySpace).reverse = r.data :=
    congrArg String.data ht
  have l1 := length_dropWhile_le isPySpace r.data
  have l2 := length_dropWhile_le isPySpace (r.data.dropWhile isPySpace).reverse
  have hlen : ((r.data.dropWhile isPySpace).reverse.dropWhile isPySpace).reverse.length
      = r.data.length := by rw [hdata]
  simp only [List.length_reverse] at hlen l2
  have ha : (r.data.dropWhile isPySpace).length = r.data.length := by omega
  have ha' : r.data.dropWhile isPySpace = r.data := dropWhile_length_eq ha
  refine ⟨ha', ?_⟩
  rw [ha'] at hdata
  have hb : (r.data.reverse.dropWhile isPySpace).length = r.data.reverse.length := by
    simp only [List.length_reverse]
    rw [ha'] at l2
    have := congrArg List.length hdata
    simp only [List.length_reverse] at this
    omega
  exact dropWhile_length_eq hb

theorem pyStrip_append_newline (r : String) (hne : r ≠ "") (ht : pyStrip r = r) :
    pyStrip (r ++ "\n") = r := by
  obtain ⟨hleft, hright⟩ := pyStrip_parts ht
  have hdne : r.data ≠ [] := by
    intro h
    apply hne
    have : r = ⟨r.data⟩ := rfl
    rw [this, h]
  obtain ⟨c, t, hct⟩ := List.exists_cons_of_ne_nil hdne
  have hpc : isPySpace c = false := by
    rw [hct, List.dropWhile_cons] at hleft
    by_cases hp : isPySpace c = true
    · rw [if_pos hp] at hleft
      have := length_dropWhile_le isPySpace t
      have := congrArg List.length hleft
      simp at this
      omega
    · exact Bool.eq_false_iff.mpr hp
  have hdata : (r ++ "\n").data = r.data ++ ['\n'] := rfl
  show (⟨(((r ++ "\n").data.dropWhile isPySpace).reverse.dropWhile isPySpace).reverse⟩ : String) = r
  rw [hdata, hct, List.cons_append, List.dropWhile_cons, if_neg (by simp [hpc])]
  rw [← List.cons_append, ← hct]
  have hrev : (r.data ++ ['\n']).reverse = '\n' :: r.data.reverse := by
    simp
  rw [hrev, List.dropWhile_cons, if_pos (by decide), hright]
  simp only [List.reverse_reverse]

/-- C5: while the child is running, a well-formed inbound request line is
written to the child's input pipe followed by a newline, one reply line is
read, and the reply (its line content, which carries no surrounding
whitespace) is emitted as the relay's own output, byte-identical. -/
theorem C5_relay_forward (env : RelayEnv) (st : RelayState) (line : String) (req : Json)
    (r : String)
    (hdec : parseJson line = some req) (hobj : req.isObj = true)
    (hrun : st.serverProc = true)
    (hreply : env.childReply line = some (r ++ "\n"))
    (hne : r ≠ "") (ht : pyStrip r = r) :
    relayHandleLine env st line =
      { state := st, sentToChild := some (line ++ "\n"), output := r } := by
  obtain ⟨fs, rfl⟩ := (isObj_iff req).mp hobj
  obtain ⟨b⟩ := st
  subst hrun
  have hcond : ¬((true : Bool) = false ∧ env.spawnOk = false) := by simp
  have hnl : ¬(r ++ "\n" = "") := by
    intro h
    have := congrArg String.data h
    simp only [show (r ++ "\n").data = r.data ++ ['\n'] from rfl] at this
    simp at this
  simp [relayHandleLine, hdec, pyDictGet, hcond, relaySend, hreply, hnl,
    pyStrip_append_newline r hne ht, hne]

set_option maxHeartbeats 1000000 in
/-- Witness for C5: the spec's relay scenario — the tools/list request with
id 1 is forwarded verbatim and the child's exact reply line is emitted
byte-identically. -/
theorem C5_relay_forward_witness :
    relayHandleLine
      { spawnOk := true
        childReply := fun m =>
          if m = "\x7b\"jsonrpc\":\"2.0\",\"id\":1,\"method\":\"tools/list\",\"params\":\x7b\x7d\x7d"
          then some ("\x7b\"jsonrpc\":\"2.0\",\"id\":1,\"result\":\x7b\"tools\":[]\x7d\x7d" ++ "\n")
          else none }
      { serverProc := true }
      "\x7b\"jsonrpc\":\"2.0\",\"id\":1,\"method\":\"tools/list\",\"params\":\x7b\x7d\x7d" =
    { state := { serverProc := true },
      sentToChild := some
        ("\x7b\"jsonrpc\":\"2.0\",\"id\":1,\"method\":\"tools/list\",\"params\":\x7b\x7d\x7d" ++ "\n"),
      output := "\x7b\"jsonrpc\":\"2.0\",\"id\":1,\"result\":\x7b\"tools\":[]\x7d\x7d" } :=
  C5_relay_forward
    { spawnOk := true
      childReply := fun m =>
        if m = "\x7b\"jsonrpc\":\"2.0\",\"id\":1,\"method\":\"tools/list\",\"params\":\x7b\x7d\x7d"
        then some ("\x7b\"jsonrpc\":\"2.0\",\"id\":1,\"result\":\x7b\"tools\":[]\x7d\x7d" ++ "\n")
        else none }
    { serverProc := true }
    "\x7b\"jsonrpc\":\"2.0\",\"id\":1,\"method\":\"tools/list\",\"params\":\x7b\x7d\x7d"
    (.obj [("jsonrpc", .str "2.0"), ("id", .num 1), ("method", .str "tools/list"),
      ("params", .obj [])])
    "\x7b\"jsonrpc\":\"2.0\",\"id\":1,\"result\":\x7b\"tools\":[]\x7d\x7d"
    (by rfl) (by rfl) (by rfl) (by rfl) (by decide) (by rfl)

/-! ## Claim C1 -/

theorem mockHandleHandshake_ne_none (rid params : Json) :
    mockHandleHandshake rid params ≠ .ok none := by
  unfold mockHandleHandshake
  split <;> simp

theorem mockToolCall_ne_none (env : MockEnv) (rid params : Json) :
    mockToolCall env rid params ≠ .ok none := by
  unfold mockToolCall
  (repeat' split) <;> simp

theorem mockHandle_ne_none (env : MockEnv) (s : MockState) (fs : List (String × Json))
    (hb : ((jlookup fs "method").getD .null == Json.str "initialized") = false) :
    (mockHandle env s (.obj fs)).2 ≠ .ok none := by
  simp only [mockHandle, pyDictGet, pyDictGetD, hb, Bool.false_eq_true, if_false]
  (repeat' split) <;> simp
  · exact mockHandleHandshake_ne_none _ _
  · exact mockToolCall_ne_none _ _ _

set_option maxHeartbeats 1000000 in
/-- Counterexample to C1: the envelope with method tools/list and no id — a
notification by the claim's definition — still produces an output line on the
mock host (a tools listing whose id is null). -/
theorem C1_counterexample :
    parseJson (jsonToLine (.obj [("jsonrpc", .str "2.0"), ("method", .str "tools/list")])) =
      some (.obj [("jsonrpc", .str "2.0"), ("method", .str "tools/list")]) ∧
    isNotificationEnv (.obj [("jsonrpc", .str "2.0"), ("method", .str "tools/list")]) = true ∧
    (mockStepLine envM mockStart
      (jsonToLine (.obj [("jsonrpc", .str "2.0"), ("method", .str "tools/list")]))).2 ≠ none ∧
    (mockStepLine envM mockStart
      (jsonToLine (.obj [("jsonrpc", .str "2.0"), ("method", .str "tools/list")]))).2 =
      some (jsonToLine (successResponse .null (.obj [("tools", mockToolsDef)]))) := by
  refine ⟨rfl, rfl, ?_, rfl⟩
  rw [show (mockStepLine envM mockStart
      (jsonToLine (.obj [("jsonrpc", .str "2.0"), ("method", .str "tools/list")]))).2 =
    some (jsonToLine (successResponse .null (.obj [("tools", mockToolsDef)]))) from rfl]
  exact Option.some_ne_none _

/-- C1 amended: a well-formed envelope produces no output line if and only if
its method is the handshake-complete method "initialized" — regardless of
whether it carries an id.  In particular an id-less envelope with any other
method still receives a response (whose id is null), and an "initialized"
envelope carrying an id receives none. -/
theorem C1_amended (env : MockEnv) (s : MockState) (line : String) (req : Json)
    (hdec : parseJson line = some req) (hobj : req.isObj = true) :
    (mockStepLine env s line).2 = none ↔ jget req "method" = .str "initialized" := by
  obtain ⟨fs, rfl⟩ := (isObj_iff req).mp hobj
  simp only [mockStepLine, hdec]
  by_cases hb : ((jlookup fs "method").getD .null == Json.str "initialized") = true
  · have hm : jget (.obj fs) "method" = .str "initialized" := (Json.beq_iff _ _).mp hb
    rw [mockHandle_init_notification env s (.obj fs) rfl hm]
    simp [hm]
  · have hb' : ((jlookup fs "method").getD .null == Json.str "initialized") = false :=
      Bool.eq_false_iff.mpr hb
    have hm : ¬ jget (.obj fs) "method" = .str "initialized" :=
      fun h => hb ((Json.beq_iff _ _).mpr h)
    have hne := mockHandle_ne_none env s fs hb'
    rcases hh : mockHandle env s (.obj fs) with ⟨s', r⟩
    rw [hh] at hne
    simp only at hne
    cases r with
    | error e => simp [hm]
    | ok o =>
      cases o with
      | none => exact absurd rfl hne
      | some resp => simp [hm]

set_option maxHeartbeats 1000000 in
/-- Witness for C1 amended: the handshake-complete notification draws no
output, while the id-less tools/list envelope draws one. -/
theorem C1_amended_witness :
    ((mockStepLine envM mockStart (jsonToLine sampleNotification)).2 = none ↔
      jget sampleNotification "method" = .str "initialized") ∧
    ((mockStepLine envM mockStart
        (jsonToLine (.obj [("jsonrpc", .str "2.0"), ("method", .str "tools/list")]))).2 = none ↔
      jget (.obj [("jsonrpc", .str "2.0"), ("method", .str "tools/list")]) "method" =
        .str "initialized") :=
  ⟨C1_amended envM mockStart (jsonToLine sampleNotification) sampleNotification
      (by rfl) (by rfl),
   C1_amended envM mockStart
      (jsonToLine (.obj [("jsonrpc", .str "2.0"), ("method", .str "tools/list")]))
      (.obj [("jsonrpc", .str "2.0"), ("method", .str "tools/list")])
      (by rfl) (by rfl)⟩

/-! ## Claim C7 -/

theorem mockHandle_not_obj (env : MockEnv) (s : MockState) (req : Json)
    (h : req.isObj = false) :
    mockHandle env s req =
      (s, .error ("\x27" ++ pyTypeName req ++ "\x27 object has no attribute \x27get\x27")) := by
  simp only [mockHandle, pyDictGet_not_obj req "method" h]

theorem httpHandle_not_obj (env : HttpEnv) (s : HttpState) (req : Json)
    (h : req.isObj = false) :
    httpHandle env s req =
      (s, .error ("\x27" ++ pyTypeName req ++ "\x27 object has no attribute \x27get\x27")) := by
  simp only [httpHandle, pyDictGet_not_obj req "method" h]

set_option maxHeartbeats 1000000 in
/-- Counterexample to C7: the input line "5" cannot be decoded as a
structured envelope (it is a bare number, not an object), yet the mock host
answers it with error code -32603 — the AttributeError from calling .get on
an int — rather than the claimed -32700. -/
theorem C7_counterexample :
    parseJson "5" = some (.num 5) ∧
    (Json.num 5).isObj = false ∧
    mockRun (fun _ => envM) 0 mockStart ["5"] =
      [jsonToLine (errorResponse .null (-32603)
        "\x27int\x27 object has no attribute \x27get\x27")] ∧
    mockRun (fun _ => envM) 0 mockStart ["5"] ≠
      [jsonToLine (errorResponse .null (-32700) "Parse error")] := by
  refine ⟨rfl, rfl, rfl, ?_⟩
  rw [show mockRun (fun _ => envM) 0 mockStart ["5"] =
    [jsonToLine (errorResponse .null (-32603)
      "\x27int\x27 object has no attribute \x27get\x27")] from rfl]
  decide

/-- C7 amended: an input line that is not syntactically valid JSON draws
exactly one error envelope with code -32700 and id null and the run loop
continues with the remaining lines; a line that is valid JSON but not a JSON
object instead draws one error envelope with code -32603 and id null (the
text of the AttributeError raised by .get), and the loop also continues.
This holds for all three processes. -/
theorem C7_amended :
    (∀ (envs : Nat → MockEnv) (k : Nat) (s : MockState) (line : String) (rest : List String),
      pyStrip line ≠ "" → parseJson (pyStrip line) = none →
      mockRun envs k s (line :: rest) =
        jsonToLine (errorResponse .null (-32700) "Parse error") :: mockRun envs (k + 1) s rest) ∧
    (∀ (envs : Nat → MockEnv) (k : Nat) (s : MockState) (line : String) (rest : List String)
      (req : Json),
      pyStrip line ≠ "" → parseJson (pyStrip line) = some req → req.isObj = false →
      mockRun envs k s (line :: rest) =
        jsonToLine (errorResponse .null (-32603)
          ("\x27" ++ pyTypeName req ++ "\x27 object has no attribute \x27get\x27")) ::
        mockRun envs (k + 1) s rest) ∧
    (∀ (envs : Nat → HttpEnv) (k : Nat) (s : HttpState) (line : String) (rest : List String),
      pyStrip line ≠ "" → parseJson (pyStrip line) = none →
      httpRun envs k s (line :: rest) =
        jsonToLine (errorResponse .null (-32700) "Parse error") :: httpRun envs (k + 1) s rest) ∧
    (∀ (envs : Nat → HttpEnv) (k : Nat) (s : HttpState) (line : String) (rest : List String)
      (req : Json),
      pyStrip line ≠ "" → parseJson (pyStrip line) = some req → req.isObj = false →
      httpRun envs k s (line :: rest) =
        jsonToLine (errorResponse .null (-32603)
          ("\x27" ++ pyTypeName req ++ "\x27 object has no attribute \x27get\x27")) ::
        httpRun envs (k + 1) s rest) ∧
    (∀ (envs : Nat → RelayEnv) (k : Nat) (st : RelayState) (line : String) (rest : List String),
      pyStrip line ≠ "" → parseJson (pyStrip line) = none →
      relayRun envs k st (line :: rest) =
        jsonToLine (errorResponse .null (-32700) "Parse error") :: relayRun envs (k + 1) st rest) ∧
    (∀ (envs : Nat → RelayEnv) (k : Nat) (st : RelayState) (line : String) (rest : List String)
      (req : Json),
      pyStrip line ≠ "" → parseJson (pyStrip line) = some req → req.isObj = false →
      relayRun envs k st (line :: rest) =
        jsonToLine (errorResponse .null (-32603)
          ("\x27" ++ pyTypeName req ++ "\x27 object has no attribute \x27get\x27")) ::
        relayRun envs (k + 1) st rest) := by
  refine ⟨?_, ?_, ?_, ?_, ?_, ?_⟩
  · intro envs k s line rest ht hdec
    simp only [mockRun, if_neg ht, mockStepLine, hdec]
  · intro envs k s line rest req ht hdec hobj
    simp only [mockRun, if_neg ht, mockStepLine, hdec,
      mockHandle_not_obj (envs k) s req hobj]
  · intro envs k s line rest ht hdec
    simp only [httpRun, if_neg ht, httpStepLine, hdec]
  · intro envs k s line rest req ht hdec hobj
    simp only [httpRun, if_neg ht, httpStepLine, hdec,
      httpHandle_not_obj (envs k) s req hobj]
  · intro envs k st line rest ht hdec
    simp only [relayRun, if_neg ht, relayHandleLine, hdec]
    simp [show jsonToLine (errorResponse .null (-32700) "Parse error") ≠ "" by decide]
  · intro envs k st line rest req ht hdec hobj
    have hne : jsonToLine (errorResponse .null (-32603)
        ("\x27" ++ pyTypeName req ++ "\x27 object has no attribute \x27get\x27")) ≠ "" := by
      intro h
      have h2 : encodeJson (errorResponse .null (-32603)
          ("\x27" ++ pyTypeName req ++ "\x27 object has no attribute \x27get\x27")) = [] :=
        congrArg String.data h
      rw [errorResponse] at h2
      simp [encodeJson] at h2
    simp only [relayRun, if_neg ht, relayHandleLine, hdec,
      pyDictGet_not_obj req "method" hobj]
    simp [hne]

set_option maxHeartbeats 1000000 in
/-- Witness for C7 amended: the not-JSON line "not json" and the
JSON-but-not-object line "5", each followed by a further line that the mock
loop still processes. -/
theorem C7_amended_witness :
    mockRun (fun _ => envM) 0 mockStart ["not json", "5"] =
      jsonToLine (errorResponse .null (-32700) "Parse error") ::
        mockRun (fun _ => envM) 1 mockStart ["5"] ∧
    mockRun (fun _ => envM) 1 mockStart ["5"] =
      jsonToLine (errorResponse .null (-32603)
        ("\x27" ++ pyTypeName (.num 5) ++ "\x27 object has no attribute \x27get\x27")) ::
        mockRun (fun _ => envM) 2 mockStart [] :=
  ⟨(C7_amended.1 (fun _ => envM) 0 mockStart "not json" ["5"] (by decide) (by rfl)),
   (C7_amended.2.1 (fun _ => envM) 1 mockStart "5" [] (.num 5) (by decide) (by rfl) (by rfl))⟩

/-! ## Claim C2 -/

set_option maxHeartbeats 1000000 in
/-- Counterexample to C2: invoking the registered tool get_time with a
non-string timezone argument raises AttributeError inside the handler (which
has no try/except), and the http host reports it as a protocol-level error
envelope with code -32603 and id null — not as an is_error result. -/
theorem C2_counterexample :
    parseJson (jsonToLine (.obj [("jsonrpc", .str "2.0"), ("id", .num 7),
        ("method", .str "tools/call"),
        ("params", .obj [("name", .str "get_time"),
          ("arguments", .obj [("timezone", .num 5)])])])) =
      some (.obj [("jsonrpc", .str "2.0"), ("id", .num 7), ("method", .str "tools/call"),
        ("params", .obj [("name", .str "get_time"),
          ("arguments", .obj [("timezone", .num 5)])])]) ∧
    (httpStepLine envH httpStart (jsonToLine (.obj [("jsonrpc", .str "2.0"), ("id", .num 7),
        ("method", .str "tools/call"),
        ("params", .obj [("name", .str "get_time"),
          ("arguments", .obj [("timezone", .num 5)])])]))).2 =
      some (jsonToLine (errorResponse .null (-32603)
        "\x27int\x27 object has no attribute \x27upper\x27")) :=
  ⟨rfl, rfl⟩

theorem httpToolCall_branch_fetch (env : HttpEnv) (rid params args : Json)
    (hp : params.isObj = true) (hname : jget params "name" = .str "fetch_url")
    (hargs : pyDictGetD params "arguments" (.obj []) = .ok args) :
    httpToolCall env rid params =
      match httpFetchUrl env args with
      | .error e => .error e
      | .ok r => .ok (some (successResponse rid r)) := by
  obtain ⟨fs, rfl⟩ := (isObj_iff params).mp hp
  have hname' : (jlookup fs "name").getD .null = .str "fetch_url" := hname
  have hargs' : (jlookup fs "arguments").getD (.obj []) = args := by
    simpa [pyDictGetD] using hargs
  simp only [httpToolCall, pyDictGet, pyDictGetD, hname', hargs',
    show (Json.str "fetch_url" == Json.str "fetch_url") = true by decide]
  simp

theorem httpToolCall_branch_get_time (env : HttpEnv) (rid params args : Json)
    (hp : params.isObj = true) (hname : jget params "name" = .str "get_time")
    (hargs : pyDictGetD params "arguments" (.obj []) = .ok args) :
    httpToolCall env rid params =
      match httpGetTime env args with
      | .error e => .error e
      | .ok r => .ok (some (successResponse rid r)) := by
  obtain ⟨fs, rfl⟩ := (isObj_iff params).mp hp
  have hname' : (jlookup fs "name").getD .null = .str "get_time" := hname
  have hargs' : (jlookup fs "arguments").getD (.obj []) = args := by
    simpa [pyDictGetD] using hargs
  simp only [httpToolCall, pyDictGet, pyDictGetD, hname', hargs',
    show (Json.str "get_time" == Json.str "fetch_url") = false by decide,
    show (Json.str "get_time" == Json.str "check_weather") = false by decide,
    show (Json.str "get_time" == Json.str "get_time") = true by decide]
  simp

theorem httpToolCall_branch_calculate (env : HttpEnv) (rid params args : Json)
    (hp : params.isObj = true) (hname : jget params "name" = .str "calculate")
    (hargs : pyDictGetD params "arguments" (.obj []) = .ok args) :
    httpToolCall env rid params =
      match httpCalculate env args with
      | .error e => .error e
      | .ok r => .ok (some (successResponse rid r)) := by
  obtain ⟨fs, rfl⟩ := (isObj_iff params).mp hp
  have hname' : (jlookup fs "name").getD .null = .str "calculate" := hname
  have hargs' : (jlookup fs "arguments").getD (.obj []) = args := by
    simpa [pyDictGetD] using hargs
  simp only [httpToolCall, pyDictGet, pyDictGetD, hname', hargs',
    show (Json.str "calculate" == Json.str "fetch_url") = false by decide,
    show (Json.str "calculate" == Json.str "check_weather") = false by decide,
    show (Json.str "calculate" == Json.str "get_time") = false by decide,
    show (Json.str "calculate" == Json.str "calculate") = true by decide]
  simp

theorem httpFetchUrl_policy (env : HttpEnv) (args : Json) (url : String)
    (hargs : args.isObj = true)
    (hurl : pyDictGetD args "url" (.str "") = .ok (.str url))
    (hsafe : (safeDomains.any (fun d => containsSub (urlNetloc url).data d.data)) = false) :
    httpFetchUrl env args =
      .ok (toolResult ("Error: URL domain \x27" ++ urlNetloc url ++
        "\x27 not in safe list for testing") true) := by
  obtain ⟨fs, rfl⟩ := (isObj_iff args).mp hargs
  have hurl' : (jlookup fs "url").getD (.str "") = .str url := by
    simpa [pyDictGetD] using hurl
  simp only [httpFetchUrl, pyDictGetD, hurl']
  rw [if_pos (by simp [hsafe])]

theorem httpFetchUrl_exception (env : HttpEnv) (args : Json) (url e : String)
    (hargs : args.isObj = true)
    (hurl : pyDictGetD args "url" (.str "") = .ok (.str url))
    (hsafe : (safeDomains.any (fun d => containsSub (urlNetloc url).data d.data)) = true)
    (hfetch : env.fetch url = .error e) :
    httpFetchUrl env args = .ok (toolResult ("Error fetching URL: " ++ e) true) := by
  obtain ⟨fs, rfl⟩ := (isObj_iff args).mp hargs
  have hurl' : (jlookup fs "url").getD (.str "") = .str url := by
    simpa [pyDictGetD] using hurl
  simp only [httpFetchUrl, pyDictGetD, hurl']
  rw [if_neg (by simp [hsafe])]
  simp [hfetch]

theorem httpCalculate_exception (env : HttpEnv) (args : Json) (expr m : String)
    (hargs : args.isObj = true)
    (hexpr : pyDictGetD args "expression" (.str "") = .ok (.str expr))
    (hcalc : env.calcEval expr = .error m) :
    httpCalculate env args =
      .ok (toolResult ("Error evaluating expression: " ++ m) true) := by
  obtain ⟨fs, rfl⟩ := (isObj_iff args).mp hargs
  have hexpr' : (jlookup fs "expression").getD (.str "") = .str expr := by
    simpa [pyDictGetD] using hexpr
  simp only [httpCalculate, pyDictGetD, hexpr', hcalc]

theorem httpGetTime_raises (env : HttpEnv) (args tzv : Json) (m : String)
    (hargs : args.isObj = true)
    (htz : pyDictGetD args "timezone" (.str "UTC") = .ok tzv)
    (hupper : pyUpper tzv = .error m) :
    httpGetTime env args = .error m := by
  obtain ⟨fs, rfl⟩ := (isObj_iff args).mp hargs
  have htz' : (jlookup fs "timezone").getD (.str "UTC") = tzv := by
    simpa [pyDictGetD] using htz
  simp only [httpGetTime, pyDictGetD, htz', hupper]

/-- C2 amended: failures arising inside the try-guarded portions of the tool
handlers — fetch_url's policy check and network fetch, calculate's expression
evaluation — are reported as ordinary successful responses carrying
is_error: true and a descriptive text item; but handler code outside any try
block can raise: get_time with a non-string timezone argument raises
AttributeError, and that failure surfaces as a protocol-level error envelope
with code -32603 and id null. -/
theorem C2_amended :
    (∀ (env : HttpEnv) (rid params args : Json) (url : String),
      params.isObj = true → jget params "name" = .str "fetch_url" →
      pyDictGetD params "arguments" (.obj []) = .ok args → args.isObj = true →
      pyDictGetD args "url" (.str "") = .ok (.str url) →
      (safeDomains.any (fun d => containsSub (urlNetloc url).data d.data)) = false →
      httpToolCall env rid params = .ok (some (successResponse rid
        (toolResult ("Error: URL domain \x27" ++ urlNetloc url ++
          "\x27 not in safe list for testing") true)))) ∧
    (∀ (env : HttpEnv) (rid params args : Json) (url e : String),
      params.isObj = true → jget params "name" = .str "fetch_url" →
      pyDictGetD params "arguments" (.obj []) = .ok args → args.isObj = true →
      pyDictGetD args "url" (.str "") = .ok (.str url) →
      (safeDomains.any (fun d => containsSub (urlNetloc url).data d.data)) = true →
      env.fetch url = .error e →
      httpToolCall env rid params = .ok (some (successResponse rid
        (toolResult ("Error fetching URL: " ++ e) true)))) ∧
    (∀ (env : HttpEnv) (rid params args : Json) (expr m : String),
      params.isObj = true → jget params "name" = .str "calculate" →
      pyDictGetD params "arguments" (.obj []) = .ok args → args.isObj = true →
      pyDictGetD args "expression" (.str "") = .ok (.str expr) →
      env.calcEval expr = .error m →
      httpToolCall env rid params = .ok (some (successResponse rid
        (toolResult ("Error evaluating expression: " ++ m) true)))) ∧
    (∀ (env : HttpEnv) (s : HttpState) (line : String) (req params args tzv : Json)
      (m : String),
      parseJson line = some req → req.isObj = true →
      jget req "method" = .str "tools/call" →
      pyDictGetD req "params" (.obj []) = .ok params → params.isObj = true →
      jget params "name" = .str "get_time" →
      pyDictGetD params "arguments" (.obj []) = .ok args → args.isObj = true →
      pyDictGetD args "timezone" (.str "UTC") = .ok tzv →
      pyUpper tzv = .error m →
      (httpStepLine env s line).2 =
        some (jsonToLine (errorResponse .null (-32603) m))) := by
  refine ⟨?_, ?_, ?_, ?_⟩
  · intro env rid params args url hp hname hargs haobj hurl hsafe
    rw [httpToolCall_branch_fetch env rid params args hp hname hargs,
      httpFetchUrl_policy env args url haobj hurl hsafe]
  · intro env rid params args url e hp hname hargs haobj hurl hsafe hfetch
    rw [httpToolCall_branch_fetch env rid params args hp hname hargs,
      httpFetchUrl_exception env args url e haobj hurl hsafe hfetch]
  · intro env rid params args expr m hp hname hargs haobj hexpr hcalc
    rw [httpToolCall_branch_calculate env rid params args hp hname hargs,
      httpCalculate_exception env args expr m haobj hexpr hcalc]
  · intro env s line req params args tzv m hdec hobj hm hparams hpobj hname hargs haobj htz hup
    obtain ⟨fs, rfl⟩ := (isObj_iff req).mp hobj
    have hparams' : (jlookup fs "params").getD (.obj []) = params := by
      simpa [pyDictGetD] using hparams
    simp only [httpStepLine, hdec, httpHandle_tool_call env s fs hm, hparams',
      httpToolCall_branch_get_time env _ params args hpobj hname hargs,
      httpGetTime_raises env args tzv m haobj htz hup]

set_option maxHeartbeats 1000000 in
/-- Witness for C2 amended: a policy-rejected fetch, a fetch whose network
request raises, a calculation whose evaluation raises — all three reported
with is_error true — and the concrete get_time AttributeError surfacing as
-32603 with id null. -/
theorem C2_amended_witness :
    httpToolCall envH (.num 9)
        (.obj [("name", .str "fetch_url"),
          ("arguments", .obj [("url", .str "http://evil.example/x")])]) =
      .ok (some (successResponse (.num 9)
        (toolResult ("Error: URL domain \x27" ++ urlNetloc "http://evil.example/x" ++
          "\x27 not in safe list for testing") true))) ∧
    httpToolCall envH (.num 9)
        (.obj [("name", .str "fetch_url"),
          ("arguments", .obj [("url", .str "https://httpbin.org/get")])]) =
      .ok (some (successResponse (.num 9)
        (toolResult ("Error fetching URL: " ++ "x") true))) ∧
    httpToolCall
        { nowEpoch := 0, randTemp := 20, randCond := "Sunny",
          fetch := fun _ => .error "x", calcEval := fun _ => .error "division by zero" }
        (.num 9)
        (.obj [("name", .str "calculate"),
          ("arguments", .obj [("expression", .str "1/0")])]) =
      .ok (some (successResponse (.num 9)
        (toolResult ("Error evaluating expression: " ++ "division by zero") true))) ∧
    (httpStepLine envH httpStart (jsonToLine (.obj [("jsonrpc", .str "2.0"), ("id", .num 7),
        ("method", .str "tools/call"),
        ("params", .obj [("name", .str "get_time"),
          ("arguments", .obj [("timezone", .num 5)])])]))).2 =
      some (jsonToLine (errorResponse .null (-32603)
        "\x27int\x27 object has no attribute \x27upper\x27")) :=
  ⟨C2_amended.1 envH (.num 9)
      (.obj [("name", .str "fetch_url"),
        ("arguments", .obj [("url", .str "http://evil.example/x")])])
      (.obj [("url", .str "http://evil.example/x")]) "http://evil.example/x"
      (by rfl) (by rfl) (by rfl) (by rfl) (by rfl) (by rfl),
   C2_amended.2.1 envH (.num 9)
      (.obj [("name", .str "fetch_url"),
        ("arguments", .obj [("url", .str "https://httpbin.org/get")])])
      (.obj [("url", .str "https://httpbin.org/get")]) "https://httpbin.org/get" "x"
      (by rfl) (by rfl) (by rfl) (by rfl) (by rfl) (by rfl) (by rfl),
   C2_amended.2.2.1
      { nowEpoch := 0, randTemp := 20, randCond := "Sunny",
        fetch := fun _ => .error "x", calcEval := fun _ => .error "division by zero" }
      (.num 9)
      (.obj [("name", .str "calculate"),
        ("arguments", .obj [("expression", .str "1/0")])])
      (.obj [("expression", .str "1/0")]) "1/0" "division by zero"
      (by rfl) (by rfl) (by rfl) (by rfl) (by rfl) (by rfl),
   C2_amended.2.2.2 envH httpStart
      (jsonToLine (.obj [("jsonrpc", .str "2.0"), ("id", .num 7),
        ("method", .str "tools/call"),
        ("params", .obj [("name", .str "get_time"),
          ("arguments", .obj [("timezone", .num 5)])])]))
      (.obj [("jsonrpc", .str "2.0"), ("id", .num 7), ("method", .str "tools/call"),
        ("params", .obj [("name", .str "get_time"),
          ("arguments", .obj [("timezone", .num 5)])])])
      (.obj [("name", .str "get_time"), ("arguments", .obj [("timezone", .num 5)])])
      (.obj [("timezone", .num 5)]) (.num 5)
      "\x27int\x27 object has no attribute \x27upper\x27"
      (by rfl) (by rfl) (by rfl) (by rfl) (by rfl) (by rfl) (by rfl) (by rfl) (by rfl)
      (by rfl)⟩
